import Mathlib

/-!
# Bluepad32 BLE introspection service

A shallow embedding of `src/components/bluepad32/bt/uni_bt_service.c`.

* The file-level statics (`client_connections`, `connection_index`,
  `compact_devices`, `service_enabled`) become the fields of `service_t`, which
  every operation takes and returns explicitly.
* Calls into BTstack and into the other bluepad32 modules are recorded, in
  program order, as a list of `ext_call` values returned next to the new state.
  Logging (`logi`, `loge`) has no effect on the state and is left out.
* Unsigned machine integers are natural numbers; a store into a `uint8_t` or
  `uint16_t` field truncates explicitly (`u8`, `u16`).  The C `int` cursor
  `connection_index` is an `Int`.
* `compact_device_t` is a packed struct on a little-endian target; its bytes in
  memory are given by `compact_device_bytes`.
-/

namespace UniBtService

/-! ## Constants -/

/-- The C constant `HID_NAME_COMPACT_LEN` (line 21). -/
def HID_NAME_COMPACT_LEN : Nat := 16

/-- The C constant `MAX_NR_CLIENT_CONNECTIONS` (line 24). -/
def MAX_NR_CLIENT_CONNECTIONS : Nat := 2

/-- Modelled from the spec: the explicit "invalid" connection-handle sentinel
`HCI_CON_HANDLE_INVALID`.  It is declared by BTstack, outside `src/`, where its
value is `0xffff`; no result below depends on the value. -/
def HCI_CON_HANDLE_INVALID : Nat := 0xffff

/-- Modelled from the spec: the notification bit of the 2-byte little-endian
client-configuration flags (`GATT_CLIENT_CHARACTERISTICS_CONFIGURATION_NOTIFICATION`,
declared by BTstack, value 1). -/
def GATT_CLIENT_CHARACTERISTICS_CONFIGURATION_NOTIFICATION : Nat := 1

/-- Modelled from the spec: the packet type of an HCI event packet (`HCI_EVENT_PACKET`,
declared by BTstack, value 4). -/
def HCI_EVENT_PACKET : Nat := 4

/-- Conversion to `uint8_t`. -/
def u8 (x : Nat) : Nat := x % 256

/-- Conversion to `uint16_t`. -/
def u16 (x : Nat) : Nat := x % 65536

/-- C `memcpy(dst, src, n)` on byte buffers: the first `n` bytes of `dst` are
replaced by the first `n` bytes of `src`, the rest of `dst` is kept. -/
def memcpy (dst src : List Nat) (n : Nat) : List Nat :=
  src.take n ++ dst.drop n

/-! ## Data model -/

/-- The packed struct `compact_device_t` (lines 28-37).
`addr` is the 6-byte `bd_addr_t`, `name` the `HID_NAME_COMPACT_LEN`-byte buffer. -/
structure compact_device_t where
  addr : List Nat
  vendor_id : Nat
  product_id : Nat
  state : Nat
  incoming : Nat
  controller_type : Nat
  controller_subtype : Nat
  name : List Nat
deriving DecidableEq, Repr

/-- The struct `client_connection_t` (lines 40-44). -/
structure client_connection_t where
  notification_enabled : Bool
  value_handle : Nat
  connection_handle : Nat
deriving DecidableEq, Repr

/-- Modelled from the spec: the part of the registry's connection record
(`uni_bt_conn_t`, declared outside `src/`) that this file reads: the 6-byte
address, the connection handle, the connection-state enum, and the `incoming`
and `connected` flags (numeric, 0 or 1 for a C `bool`). -/
structure uni_bt_conn_t where
  btaddr : List Nat
  handle : Nat
  state : Nat
  incoming : Nat
  connected : Nat
deriving DecidableEq, Repr

/-- Modelled from the spec: the part of the registry's device record
(`uni_hid_device_t`, declared outside `src/`) that this file reads.  `name` is
the whole `HID_MAX_NAME_LEN`-byte name buffer.  `idx` is the value the registry
function `uni_hid_device_get_idx_for_instance` returns for this instance: its
stable slot index, or a negative number when the registry has no slot for it. -/
structure uni_hid_device_t where
  vendor_id : Nat
  product_id : Nat
  name : List Nat
  controller_type : Nat
  controller_subtype : Nat
  conn : uni_bt_conn_t
  idx : Int
deriving DecidableEq, Repr

/-- Modelled from the spec: the registry lookup `uni_hid_device_get_idx_for_instance`
(defined outside `src/`): the externally supplied stable slot index of a device. -/
def uni_hid_device_get_idx_for_instance (d : uni_hid_device_t) : Int := d.idx

/-- The file-level statics of `uni_bt_service.c` (lines 45-50). -/
structure service_t where
  client_connections : List client_connection_t
  connection_index : Int
  compact_devices : List compact_device_t
  service_enabled : Bool
deriving DecidableEq, Repr

/-- Calls that leave this file, in the order the code makes them. -/
inductive ext_call where
  | att_server_init
  | att_server_register_packet_handler
  | gap_advertisements_set_params (adv_int_min adv_int_max adv_type direct_address_type : Nat)
      (direct_address : List Nat) (channel_map filter_policy : Nat)
  | gap_advertisements_set_data (len : Nat) (data : List Nat)
  | gap_advertisements_enable (enabled : Bool)
  | att_server_notify (con_handle value_handle : Nat) (value : List Nat) (value_len : Nat)
  | att_server_request_can_send_now_event (con_handle : Nat)
  | uni_bt_le_set_enabled (enabled : Bool)
  | uni_bt_enable_new_connections_unsafe (enabled : Bool)
deriving DecidableEq, Repr

/-- Modelled from the spec: the attribute identifiers of the generated GATT
database header `uni_bt_service.gatt.h` (outside `src/`) that the callbacks
switch on.  The last four hex digits of the characteristic name's first group
and the handle kind are kept in the field names. -/
structure gatt_profile_t where
  AC01_VALUE_HANDLE : Nat
  AC02_VALUE_HANDLE : Nat
  AC03_VALUE_HANDLE : Nat
  AC04_VALUE_HANDLE : Nat
  AC05_VALUE_HANDLE : Nat
  AC05_CLIENT_CONFIGURATION_HANDLE : Nat
deriving DecidableEq, Repr

/-- The labels of one C `switch` are pairwise distinct constants. -/
def gatt_profile_t.distinct (p : gatt_profile_t) : Prop :=
  [p.AC01_VALUE_HANDLE, p.AC02_VALUE_HANDLE, p.AC03_VALUE_HANDLE, p.AC04_VALUE_HANDLE,
    p.AC05_VALUE_HANDLE, p.AC05_CLIENT_CONFIGURATION_HANDLE].Nodup

instance (p : gatt_profile_t) : Decidable p.distinct := by
  unfold gatt_profile_t.distinct; infer_instance

/-- Modelled from the spec: what the read callback obtains from its
collaborators (all outside `src/`): the version string `uni_version` and the
accessors `uni_bt_le_is_enabled` and `uni_bt_enable_new_connections_is_enabled`. -/
structure collaborators_t where
  uni_version : List Nat
  uni_bt_le_is_enabled : Bool
  uni_bt_enable_new_connections_is_enabled : Bool
deriving DecidableEq, Repr

/-! ## Memory image of the device table -/

/-- Two bytes of a `uint16_t`, least significant first. -/
def le16_bytes (x : Nat) : List Nat := [x % 256, x / 256 % 256]

/-- Modelled from the spec: `uni_controller_subtype_t` (declared outside `src/`)
is an 8-bit enum, so a packed record occupies 6+2+2+1+1+2+1+16 bytes. -/
def sizeof_compact_device_t : Nat := 31

/-- The bytes of one packed `compact_device_t` in memory, fields in declaration
order, no padding, little-endian. -/
def compact_device_bytes (c : compact_device_t) : List Nat :=
  c.addr ++ le16_bytes c.vendor_id ++ le16_bytes c.product_id ++ [c.state % 256]
    ++ [c.incoming % 256] ++ le16_bytes c.controller_type ++ [c.controller_subtype % 256]
    ++ c.name

/-- The bytes of the array `compact_devices`: its records one after another. -/
def compact_devices_bytes : List compact_device_t → List Nat
  | [] => []
  | c :: t => compact_device_bytes c ++ compact_devices_bytes t

/-- The C expression `sizeof(compact_devices)`. -/
def sizeof_compact_devices (s : service_t) : Nat :=
  s.compact_devices.length * sizeof_compact_device_t

/-- A record whose two byte arrays have their declared sizes. -/
def compact_device_t.wf (c : compact_device_t) : Prop :=
  c.addr.length = 6 ∧ c.name.length = HID_NAME_COMPACT_LEN

instance (c : compact_device_t) : Decidable c.wf := by
  unfold compact_device_t.wf; infer_instance

/-- The result of `memset(&rec, 0, sizeof(compact_device_t))`. -/
def compact_device_zero : compact_device_t :=
  { addr := List.replicate 6 0, vendor_id := 0, product_id := 0, state := 0, incoming := 0,
    controller_type := 0, controller_subtype := 0,
    name := List.replicate HID_NAME_COMPACT_LEN 0 }

/-- The result of `memset(ctx, 0, sizeof(client_connection_t))`. -/
def client_connection_zero : client_connection_t :=
  { notification_enabled := false, value_handle := 0, connection_handle := 0 }

/-- A write through a pointer to element `i` of an array: the element is
replaced by `f` of its old value; the other elements are kept.  An index at or
beyond the array's size, where the C code would write out of bounds, leaves the
array as it is; the registry's slot indices and the pointers returned by
`connection_for_conn_handle` are always inside their arrays. -/
def write_at {α : Type} (l : List α) (i : Nat) (f : α → α) : List α :=
  match l[i]? with
  | some a => l.set i (f a)
  | none => l

/-! ## Notification scheduler -/

/-- The loop condition of both notification scans (lines 87-88, 119-120). -/
def client_active (c : client_connection_t) : Bool :=
  (c.connection_handle != HCI_CON_HANDLE_INVALID) && c.notification_enabled

/-- Element `i` of the client table for a C `int` index; `none` for an index
outside the array, which a cursor inside `0 .. MAX_NR_CLIENT_CONNECTIONS - 1`
never produces. -/
def client_at (cc : List client_connection_t) (i : Int) : Option client_connection_t :=
  if i < 0 then none else cc[i.toNat]?

/-- The `for` loop of `notify_client` (lines 84-92), `n` iterations left, at
index `i`: the first index holding an active client, or `-1`. -/
def notify_client_scan (cc : List client_connection_t) : Int → Nat → Int
  | _, 0 => -1
  | i, n + 1 =>
    match client_at cc i with
    | some c => if client_active c then i else notify_client_scan cc (i + 1) n
    | none => notify_client_scan cc (i + 1) n

/-- A `for (i = ...; i < MAX_NR_CLIENT_CONNECTIONS; i++)` loop from index `i`
with `n` iterations left that stops at the first entry satisfying `p` and
yields a pointer to it (its index), or `NULL`. -/
def first_client (cc : List client_connection_t) (p : client_connection_t → Bool) :
    Nat → Nat → Option Nat
  | _, 0 => none
  | i, n + 1 =>
    match cc[i]? with
    | some c => if p c then some i else first_client cc p (i + 1) n
    | none => first_client cc p (i + 1) n

/-- The function `notify_client` (lines 81-112). -/
def notify_client (s : service_t) : service_t × List ext_call :=
  let idx := notify_client_scan s.client_connections s.connection_index
    ((MAX_NR_CLIENT_CONNECTIONS : Int) - s.connection_index).toNat
  if idx = -1 then (s, [])
  else
    match client_at s.client_connections idx with
    | none => (s, [])
    | some ctx =>
      let next := s.connection_index + 1
      let next := if next = (MAX_NR_CLIENT_CONNECTIONS : Int) then 0 else next
      ({ s with connection_index := next },
        [ ext_call.att_server_notify ctx.connection_handle ctx.value_handle
            (compact_devices_bytes s.compact_devices) (u16 (sizeof_compact_devices s)),
          ext_call.att_server_request_can_send_now_event ctx.connection_handle ])

/-- The function `maybe_notify_client` (lines 114-127); it only reads the state. -/
def maybe_notify_client (s : service_t) : List ext_call :=
  match first_client s.client_connections client_active 0 MAX_NR_CLIENT_CONNECTIONS with
  | some i =>
    match s.client_connections[i]? with
    | some ctx => [ ext_call.att_server_request_can_send_now_event ctx.connection_handle ]
    | none => []
  | none => []

/-- The function `connection_for_conn_handle` (lines 252-259): the index of the
entry the returned pointer refers to, `none` for `NULL`. -/
def connection_for_conn_handle (cc : List client_connection_t) (conn_handle : Nat) :
    Option Nat :=
  first_client cc (fun c => c.connection_handle == conn_handle) 0 MAX_NR_CLIENT_CONNECTIONS

/-! ## Attribute dispatcher -/

/-- Modelled from the spec: BTstack's `little_endian_read_16` (outside `src/`):
the 16-bit value of the two bytes at `pos`, least significant first. -/
def little_endian_read_16 (buffer : Nat → Nat) (pos : Nat) : Nat :=
  buffer pos + 256 * buffer (pos + 1)

/-- The function `att_write_callback` (lines 129-172).  `buffer i` is the byte
(a `uint8_t` value) at offset `i` from the C pointer `buffer`.  The result is
the returned `int`, the new state and the external calls made. -/
def att_write_callback (p : gatt_profile_t) (s : service_t) (con_handle att_handle
    _transaction_mode offset : Nat) (buffer : Nat → Nat) (buffer_size : Nat) :
    Int × service_t × List ext_call :=
  if att_handle = p.AC05_CLIENT_CONFIGURATION_HANDLE then
    match connection_for_conn_handle s.client_connections con_handle with
    | none => (0, s, [])
    | some i =>
      (0, { s with client_connections := write_at s.client_connections i (fun ctx =>
              { ctx with
                notification_enabled :=
                  little_endian_read_16 buffer 0
                    == GATT_CLIENT_CHARACTERISTICS_CONFIGURATION_NOTIFICATION,
                value_handle := p.AC05_VALUE_HANDLE }) }, [])
  else if att_handle = p.AC03_VALUE_HANDLE then
    if buffer_size ≠ 1 ∨ offset ≠ 0 then (0, s, [])
    else
      let enabled : Bool := buffer 0 != 0
      (1, s, [ ext_call.uni_bt_le_set_enabled enabled ])
  else if att_handle = p.AC04_VALUE_HANDLE then
    if buffer_size ≠ 1 ∨ offset ≠ 0 then (0, s, [])
    else
      let enabled : Bool := buffer 0 != 0
      (1, s, [ ext_call.uni_bt_enable_new_connections_unsafe enabled ])
  else (0, s, [])

/-- Modelled from the spec: BTstack's `att_read_callback_handle_blob` (outside
`src/`), following section 4.2: "if offset exceeds the value's length, return
zero bytes; otherwise return min(remaining, buffer_capacity) bytes starting at
offset".  The result is the returned byte count and the bytes stored in the
caller's buffer. -/
def att_read_callback_handle_blob (blob : List Nat) (blob_size offset buffer_size : Nat) :
    Nat × List Nat :=
  if offset > blob_size then (0, [])
  else
    let bytes_to_copy := min (blob_size - offset) buffer_size
    (bytes_to_copy, (blob.drop offset).take bytes_to_copy)

/-- The function `att_read_callback` (lines 174-250).  The attribute cases that
only `break` fall to the final `return 0` like the default case. -/
def att_read_callback (p : gatt_profile_t) (env : collaborators_t) (s : service_t)
    (_connection_handle att_handle offset buffer_size : Nat) : Nat × List Nat :=
  if att_handle = p.AC01_VALUE_HANDLE then
    att_read_callback_handle_blob env.uni_version (u16 env.uni_version.length) offset buffer_size
  else if att_handle = p.AC02_VALUE_HANDLE then
    let max := u8 s.compact_devices.length
    att_read_callback_handle_blob [max] 1 offset buffer_size
  else if att_handle = p.AC03_VALUE_HANDLE then
    let enabled := if env.uni_bt_le_is_enabled then 1 else 0
    att_read_callback_handle_blob [enabled] 1 offset buffer_size
  else if att_handle = p.AC04_VALUE_HANDLE then
    let scanning := if env.uni_bt_enable_new_connections_is_enabled then 1 else 0
    att_read_callback_handle_blob [scanning] 1 offset buffer_size
  else if att_handle = p.AC05_VALUE_HANDLE then
    att_read_callback_handle_blob (compact_devices_bytes s.compact_devices)
      (u16 (sizeof_compact_devices s)) offset buffer_size
  else (0, [])

/-! ## ATT connection events -/

/-- Modelled from the spec: an event packet as BTstack's accessors (outside
`src/`) decode it: its event type and, for connect and disconnect, the
connection handle it carries. -/
inductive att_event_t where
  | ATT_EVENT_CONNECTED (handle : Nat)
  | ATT_EVENT_CAN_SEND_NOW
  | ATT_EVENT_DISCONNECTED (handle : Nat)
  | other (event_type : Nat)
deriving DecidableEq, Repr

/-- The function `att_packet_handler` (lines 261-293).  The arguments `channel`
and `size`, which the body marks unused, are left out. -/
def att_packet_handler (s : service_t) (packet_type : Nat) (packet : att_event_t) :
    service_t × List ext_call :=
  if packet_type ≠ HCI_EVENT_PACKET then (s, [])
  else
    match packet with
    | att_event_t.ATT_EVENT_CONNECTED handle =>
      match connection_for_conn_handle s.client_connections HCI_CON_HANDLE_INVALID with
      | none => (s, [])
      | some i =>
        ({ s with client_connections := write_at s.client_connections i (fun ctx =>
              { ctx with connection_handle := handle }) }, [])
    | att_event_t.ATT_EVENT_CAN_SEND_NOW => notify_client s
    | att_event_t.ATT_EVENT_DISCONNECTED handle =>
      match connection_for_conn_handle s.client_connections handle with
      | none => (s, [])
      | some i =>
        ({ s with client_connections := write_at s.client_connections i (fun _ =>
              { client_connection_zero with connection_handle := HCI_CON_HANDLE_INVALID }) },
          [])
    | att_event_t.other _ => (s, [])

/-! ## Service set-up and device lifecycle -/

/-- The advertising payload `adv_data` (lines 53-61); the three data-type codes
are the Bluetooth assigned numbers for flags (0x01), complete local name (0x09)
and complete list of 128-bit service UUIDs (0x07). -/
def adv_data : List Nat :=
  [2, 0x01, 0x06,
   5, 0x09, 66, 80, 51, 50,
   17, 0x07,
   0x63, 0x7F, 0xBF, 0xC1, 0xC5, 0xAF, 0x88, 0xB6, 0xB9, 0x46, 0x00, 0xAC, 0xA4, 0xC4, 0x27, 0x46]

/-- The statics as the C runtime sets them before any code runs: zero-filled
tables and cursor, `service_enabled = true`.  `cap` is the build-time constant
`CONFIG_BLUEPAD32_MAX_DEVICES` (defined outside `src/`). -/
def initial_statics (cap : Nat) : service_t :=
  { client_connections := List.replicate MAX_NR_CLIENT_CONNECTIONS client_connection_zero,
    connection_index := 0,
    compact_devices := List.replicate cap compact_device_zero,
    service_enabled := true }

/-- The function `uni_bt_service_init` (lines 299-323). -/
def uni_bt_service_init (s : service_t) : service_t × List ext_call :=
  ({ s with
      compact_devices := s.compact_devices.map (fun _ => compact_device_zero),
      client_connections := s.client_connections.map (fun _ =>
        { client_connection_zero with connection_handle := HCI_CON_HANDLE_INVALID }) },
    [ ext_call.att_server_init,
      ext_call.att_server_register_packet_handler,
      ext_call.gap_advertisements_set_params 0x0030 0x0030 0 0 (List.replicate 6 0) 0x07 0x00,
      ext_call.gap_advertisements_set_data adv_data.length adv_data,
      ext_call.gap_advertisements_enable true ])

/-- The function `uni_bt_service_is_enabled` (lines 325-327). -/
def uni_bt_service_is_enabled (s : service_t) : Bool := s.service_enabled

/-- The function `uni_bt_service_set_enabled` (lines 328-330). -/
def uni_bt_service_set_enabled (s : service_t) (enabled : Bool) : service_t :=
  { s with service_enabled := enabled }

/-- The function `uni_bt_service_on_device_ready` (lines 332-351); `d = none`
is the null pointer. -/
def uni_bt_service_on_device_ready (s : service_t) (d : Option uni_hid_device_t) :
    service_t × List ext_call :=
  match d with
  | none => (s, [])
  | some d =>
    if !s.service_enabled then (s, [])
    else
      let idx := uni_hid_device_get_idx_for_instance d
      if idx < 0 then (s, [])
      else
        let s1 := { s with compact_devices := write_at s.compact_devices idx.toNat (fun c =>
          { c with
            controller_subtype := u8 d.controller_subtype,
            state := u8 d.conn.connected,
            name := memcpy c.name d.name (HID_NAME_COMPACT_LEN - 1) }) }
        (s1, maybe_notify_client s1)

/-- The function `uni_bt_service_on_device_connected` (lines 353-375). -/
def uni_bt_service_on_device_connected (s : service_t) (d : Option uni_hid_device_t) :
    service_t × List ext_call :=
  match d with
  | none => (s, [])
  | some d =>
    if !s.service_enabled then (s, [])
    else
      let idx := uni_hid_device_get_idx_for_instance d
      if idx < 0 then (s, [])
      else
        let s1 := { s with compact_devices := write_at s.compact_devices idx.toNat (fun c =>
          { c with
            vendor_id := u16 d.vendor_id,
            product_id := u16 d.product_id,
            controller_type := u16 d.controller_type,
            controller_subtype := u8 d.controller_subtype,
            addr := memcpy c.addr d.conn.btaddr 6,
            state := u8 d.conn.state,
            incoming := u8 d.conn.incoming,
            name := memcpy c.name d.name (HID_NAME_COMPACT_LEN - 1) }) }
        (s1, maybe_notify_client s1)

/-- The function `uni_bt_service_on_device_disconnected` (lines 377-391). -/
def uni_bt_service_on_device_disconnected (s : service_t) (d : Option uni_hid_device_t) :
    service_t × List ext_call :=
  match d with
  | none => (s, [])
  | some d =>
    if !s.service_enabled then (s, [])
    else
      let idx := uni_hid_device_get_idx_for_instance d
      if idx < 0 then (s, [])
      else
        let s1 := { s with compact_devices := write_at s.compact_devices idx.toNat (fun _ =>
          compact_device_zero) }
        (s1, maybe_notify_client s1)

/-- One call of the device-lifecycle interface. -/
inductive lifecycle_call_t where
  | on_device_connected (d : Option uni_hid_device_t)
  | on_device_ready (d : Option uni_hid_device_t)
  | on_device_disconnected (d : Option uni_hid_device_t)
deriving DecidableEq, Repr

/-- The registry index a lifecycle call resolves for its device; `none` for a
null pointer. -/
def lifecycle_call_t.resolved : lifecycle_call_t → Option Int
  | on_device_connected d => d.map uni_hid_device_get_idx_for_instance
  | on_device_ready d => d.map uni_hid_device_get_idx_for_instance
  | on_device_disconnected d => d.map uni_hid_device_get_idx_for_instance

/-- The state after one lifecycle call. -/
def lifecycle_step (s : service_t) : lifecycle_call_t → service_t
  | lifecycle_call_t.on_device_connected d => (uni_bt_service_on_device_connected s d).1
  | lifecycle_call_t.on_device_ready d => (uni_bt_service_on_device_ready s d).1
  | lifecycle_call_t.on_device_disconnected d => (uni_bt_service_on_device_disconnected s d).1

/-- The state after a sequence of lifecycle calls, first call first. -/
def lifecycle_run (s : service_t) (calls : List lifecycle_call_t) : service_t :=
  calls.foldl lifecycle_step s

/-! ## Well-formed inputs -/

/-- A device record whose two byte arrays are at least as long as the code
reads: a 6-byte address and a name buffer of `HID_MAX_NAME_LEN` bytes, which the
static assertion of line 22 bounds below by `HID_NAME_COMPACT_LEN`. -/
def uni_hid_device_t.wf (d : uni_hid_device_t) : Prop :=
  d.conn.btaddr.length = 6 ∧ HID_NAME_COMPACT_LEN ≤ d.name.length

instance (d : uni_hid_device_t) : Decidable d.wf := by
  unfold uni_hid_device_t.wf; infer_instance

/-- Every record of a device table has its declared byte-array sizes. -/
def devices_wf (t : List compact_device_t) : Prop := ∀ c ∈ t, c.wf

instance (t : List compact_device_t) : Decidable (devices_wf t) := by
  unfold devices_wf; infer_instance

/-! ## Concrete inputs used by the witnesses and counterexamples -/

/-- The 15 characters of "SteamController" followed by the terminating zero. -/
def steam_name : List Nat :=
  [83, 116, 101, 97, 109, 67, 111, 110, 116, 114, 111, 108, 108, 101, 114, 0]

/-- A device record for registry slot 0 with vendor id 0x28DE and product id
0x1142, named "SteamController". -/
def steam_device : uni_hid_device_t :=
  { vendor_id := 0x28DE, product_id := 0x1142, name := steam_name, controller_type := 47,
    controller_subtype := 0,
    conn := { btaddr := [1, 2, 3, 4, 5, 6], handle := 64, state := 9, incoming := 1,
              connected := 1 },
    idx := 0 }

/-- The state right after `uni_bt_service_init` with a two-slot device table. -/
def fresh_service : service_t := (uni_bt_service_init (initial_statics 2)).1

/-- The state after the Steam controller connected at slot 0. -/
def steam_connected_service : service_t :=
  (uni_bt_service_on_device_connected fresh_service (some steam_device)).1

/-- The state `steam_connected_service` after `uni_bt_service_set_enabled(false)`. -/
def steam_connected_disabled_service : service_t :=
  uni_bt_service_set_enabled steam_connected_service false

/-- The lifecycle calls used by the frame witness: slot 0 connects, becomes
ready, disconnects and connects again. -/
def steam_session : List lifecycle_call_t :=
  [ lifecycle_call_t.on_device_connected (some steam_device),
    lifecycle_call_t.on_device_ready (some steam_device),
    lifecycle_call_t.on_device_disconnected (some steam_device),
    lifecycle_call_t.on_device_connected (some steam_device) ]

/-- The state `fresh_service` after `uni_bt_service_set_enabled(false)`. -/
def fresh_disabled_service : service_t := uni_bt_service_set_enabled fresh_service false

/-- The compact record of the Steam controller as `uni_bt_service_on_device_connected`
stores it in a zeroed slot. -/
def steam_record : compact_device_t :=
  { addr := [1, 2, 3, 4, 5, 6], vendor_id := 0x28DE, product_id := 0x1142, state := 9,
    incoming := 1, controller_type := 47, controller_subtype := 0, name := steam_name }

/-- The 31 bytes of `steam_record` in memory: vendor id `DE 28` at offset 6,
product id `42 11` at offset 8. -/
def steam_record_bytes : List Nat :=
  [1, 2, 3, 4, 5, 6, 0xDE, 0x28, 0x42, 0x11, 9, 1, 47, 0, 0,
   83, 116, 101, 97, 109, 67, 111, 110, 116, 114, 111, 108, 108, 101, 114, 0]

/-- A GATT database whose six handles are 3, 5, 7, 9, 11 and 12. -/
def sample_profile : gatt_profile_t :=
  { AC01_VALUE_HANDLE := 3, AC02_VALUE_HANDLE := 5, AC03_VALUE_HANDLE := 7,
    AC04_VALUE_HANDLE := 9, AC05_VALUE_HANDLE := 11, AC05_CLIENT_CONFIGURATION_HANDLE := 12 }

/-- A write buffer holding the bytes `01 00`. -/
def buffer_01_00 : Nat → Nat := fun i => if i = 0 then 1 else 0

/-- The state `steam_connected_service` after an ATT connect event for
connection handle 64. -/
def one_client_service : service_t :=
  (att_packet_handler steam_connected_service HCI_EVENT_PACKET
    (att_event_t.ATT_EVENT_CONNECTED 64)).1

/-- A state whose two client entries are both in use (handles 64 and 65), the
first subscribed to notifications of value handle 11. -/
def full_clients_service : service_t :=
  { steam_connected_service with
    client_connections :=
      [ { notification_enabled := true, value_handle := 11, connection_handle := 64 },
        { notification_enabled := false, value_handle := 0, connection_handle := 65 } ] }

/-- The collaborators' answers used by the read witness: version "4.0", BLE
enabled, scanning enabled. -/
def sample_collaborators : collaborators_t :=
  { uni_version := [52, 46, 48], uni_bt_le_is_enabled := true,
    uni_bt_enable_new_connections_is_enabled := true }

/-! ## Notification relay: vocabulary of the scheduler claims -/

/-- Whether entry `j` of the client table has a valid connection and
notifications enabled. -/
def entry_active (cc : List client_connection_t) (j : Nat) : Bool :=
  match cc[j]? with
  | some c => client_active c
  | none => false

/-- The scan order the spec describes for cursor `k`: the table indices
`k, k+1, ...`, wrapping once around the capacity. -/
def cyclic_order (k : Nat) : List Nat :=
  (List.range MAX_NR_CLIENT_CONNECTIONS).map (fun i => (k + i) % MAX_NR_CLIENT_CONNECTIONS)

/-- The active entries in the spec's cyclic order from cursor `k`. -/
def cyclic_active_order (cc : List client_connection_t) (k : Nat) : List Nat :=
  (cyclic_order k).filter (entry_active cc)

/-- The active entries in index order. -/
def active_indices (cc : List client_connection_t) : List Nat :=
  (List.range MAX_NR_CLIENT_CONNECTIONS).filter (entry_active cc)

/-- The two calls by which `notify_client` serves the client entry `ctx` in
state `s` (lines 102-103 and 111): the notification carrying the whole device
table, then the request for the next can-send-now event. -/
def notification_calls (s : service_t) (ctx : client_connection_t) : List ext_call :=
  [ ext_call.att_server_notify ctx.connection_handle ctx.value_handle
      (compact_devices_bytes s.compact_devices) (u16 (sizeof_compact_devices s)),
    ext_call.att_server_request_can_send_now_event ctx.connection_handle ]

/-- The calls `notify_client` makes when it serves entry `j`; none when the
table has no such entry. -/
def notification_calls_at (s : service_t) (j : Nat) : List ext_call :=
  match s.client_connections[j]? with
  | some ctx => notification_calls s ctx
  | none => []

/-- The external calls of `n` consecutive can-send-now events delivered from
state `s`, one list per event. -/
def can_send_now_run (s : service_t) : Nat → List (List ext_call)
  | 0 => []
  | n + 1 =>
    (att_packet_handler s HCI_EVENT_PACKET att_event_t.ATT_EVENT_CAN_SEND_NOW).2 ::
      can_send_now_run
        (att_packet_handler s HCI_EVENT_PACKET att_event_t.ATT_EVENT_CAN_SEND_NOW).1 n

/-- A write buffer holding the bytes `00 00`. -/
def buffer_00_00 : Nat → Nat := fun _ => 0

/-- The state `one_client_service` after a second ATT connect event, for
connection handle 65. -/
def two_clients_service : service_t :=
  (att_packet_handler one_client_service HCI_EVENT_PACKET
    (att_event_t.ATT_EVENT_CONNECTED 65)).1

/-- The state `two_clients_service` after connection 65 alone subscribed
(client-configuration write `01 00`). -/
def second_subscribed_service : service_t :=
  (att_write_callback sample_profile two_clients_service 65
    sample_profile.AC05_CLIENT_CONFIGURATION_HANDLE 0 0 buffer_01_00 2).2.1

/-- The state `second_subscribed_service` after connection 64 subscribed too. -/
def two_subscribers_service : service_t :=
  (att_write_callback sample_profile second_subscribed_service 64
    sample_profile.AC05_CLIENT_CONFIGURATION_HANDLE 0 0 buffer_01_00 2).2.1

/-- The state `two_subscribers_service` after one can-send-now event. -/
def two_subscribers_cursor1_service : service_t :=
  (att_packet_handler two_subscribers_service HCI_EVENT_PACKET
    att_event_t.ATT_EVENT_CAN_SEND_NOW).1

/-- The state `two_subscribers_cursor1_service` after connection 65 switched
its notifications off (client-configuration write `00 00`). -/
def first_only_cursor1_service : service_t :=
  (att_write_callback sample_profile two_subscribers_cursor1_service 65
    sample_profile.AC05_CLIENT_CONFIGURATION_HANDLE 0 0 buffer_00_00 2).2.1

/-! ## Reachable states -/

/-- One invocation of an entry point of `uni_bt_service.c`. -/
inductive service_event_t where
  | init
  | set_enabled (enabled : Bool)
  | lifecycle (call : lifecycle_call_t)
  | att_packet (packet_type : Nat) (packet : att_event_t)
  | att_write (con_handle att_handle transaction_mode offset : Nat) (buffer : Nat → Nat)
      (buffer_size : Nat)
  | att_read (connection_handle att_handle offset buffer_size : Nat)

/-- The state after one invocation; a read leaves the state as it is. -/
def service_step (p : gatt_profile_t) (s : service_t) : service_event_t → service_t
  | service_event_t.init => (uni_bt_service_init s).1
  | service_event_t.set_enabled enabled => uni_bt_service_set_enabled s enabled
  | service_event_t.lifecycle call => lifecycle_step s call
  | service_event_t.att_packet packet_type packet => (att_packet_handler s packet_type packet).1
  | service_event_t.att_write con_handle att_handle transaction_mode offset buffer buffer_size =>
    (att_write_callback p s con_handle att_handle transaction_mode offset buffer buffer_size).2.1
  | service_event_t.att_read _ _ _ _ => s

/-- The state after a sequence of invocations, first one first. -/
def service_run (p : gatt_profile_t) (s : service_t) (evs : List service_event_t) : service_t :=
  evs.foldl (service_step p) s

/-- The invariant of the client table and its cursor: the table has its
declared size and the cursor is one of its indices. -/
def cursor_in_bounds (s : service_t) : Prop :=
  s.client_connections.length = MAX_NR_CLIENT_CONNECTIONS ∧
  0 ≤ s.connection_index ∧ s.connection_index < (MAX_NR_CLIENT_CONNECTIONS : Int)

instance (s : service_t) : Decidable (cursor_in_bounds s) := by
  unfold cursor_in_bounds; infer_instance

/-- The connections for which a list of external calls requests a can-send-now
event, in call order. -/
def requested_connections : List ext_call → List Nat
  | [] => []
  | ext_call.att_server_request_can_send_now_event con_handle :: rest =>
    con_handle :: requested_connections rest
  | _ :: rest => requested_connections rest

/-- The state `two_subscribers_cursor1_service` after one more can-send-now
event and then the lifecycle call `uni_bt_service_on_device_ready` for the Steam
controller, no event being delivered in between. -/
def event_then_ready_service : service_t :=
  (uni_bt_service_on_device_ready
    (att_packet_handler two_subscribers_cursor1_service HCI_EVENT_PACKET
      att_event_t.ATT_EVENT_CAN_SEND_NOW).1
    (some steam_device)).1

end UniBtService

/-!
# Steam controller bring-up

A shallow embedding of `src/components/bluepad32/uni_hid_parser_steam.c`: the
bring-up state machine `handle_gatt_client_event` and its entry point
`uni_hid_parser_steam_setup`.  The file-level statics become the fields of
`steam_t`; the calls into BTstack's GATT client and into the device registry are
returned as a list of `steam_call` values in program order (the callback
argument, always `handle_gatt_client_event`, and the ignored return codes are
left out).  The report functions `uni_hid_parser_steam_init_report` and
`uni_hid_parser_steam_parse_input_report` touch none of these statics and are
not modelled.
-/

namespace UniHidParserSteam

open UniBtService

/-- The enum `steam_query_state_t` (lines 33-40). -/
inductive steam_query_state_t where
  | STATE_QUERY_SERVICE
  | STATE_QUERY_CHARACTERISTIC_REPORT
  | STATE_QUERY_CLEAR_MAPPINGS
  | STATE_QUERY_DISABLE_LIZARD
  | STATE_QUERY_FORCEFEEDBACK
  | STATE_QUERY_END
deriving DecidableEq, Repr

/-- The array `le_steam_service_uuid` (lines 43-44). -/
def le_steam_service_uuid : List Nat :=
  [0x10, 0x0f, 0x6c, 0x32, 0x17, 0x35, 0x43, 0x13, 0xb4, 0x02, 0x38, 0x56, 0x71, 0x31, 0xe5, 0xf3]

/-- The array `le_steam_characteristic_report_uuid` (lines 47-48). -/
def le_steam_characteristic_report_uuid : List Nat :=
  [0x10, 0x0f, 0x6c, 0x34, 0x17, 0x35, 0x43, 0x13, 0xb4, 0x02, 0x38, 0x56, 0x71, 0x31, 0xe5, 0xf3]

/-- The C constant `STEAM_CMD_CLEAR_MAPPINGS` (line 52). -/
def STEAM_CMD_CLEAR_MAPPINGS : Nat := 0x81

/-- The C constant `STEAM_CMD_WRITE_REGISTER` (line 58). -/
def STEAM_CMD_WRITE_REGISTER : Nat := 0x87

/-- The C constant `STEAM_REG_LPAD_MODE` (line 72). -/
def STEAM_REG_LPAD_MODE : Nat := 0x07

/-- The C constant `STEAM_REG_RPAD_MODE` (line 73). -/
def STEAM_REG_RPAD_MODE : Nat := 0x08

/-- The C constant `STEAM_REG_RPAD_MARGIN` (line 74). -/
def STEAM_REG_RPAD_MARGIN : Nat := 0x18

/-- The C constant `STEAM_REG_LED` (line 75). -/
def STEAM_REG_LED : Nat := 0x2d

/-- The C constant `STEAM_REG_GYRO_MODE` (line 76). -/
def STEAM_REG_GYRO_MODE : Nat := 0x30

/-- The array `cmd_clear_mappings` (lines 80-83). -/
def cmd_clear_mappings : List Nat :=
  [0xc0, STEAM_CMD_CLEAR_MAPPINGS,
   0x01]

/-- The array `cmd_disable_lizard` (lines 86-94). -/
def cmd_disable_lizard : List Nat :=
  [0xc0, STEAM_CMD_WRITE_REGISTER,
   0x0f,
   STEAM_REG_GYRO_MODE, 0x00, 0x00,
   STEAM_REG_LPAD_MODE, 0x07, 0x00,
   STEAM_REG_RPAD_MODE, 0x07, 0x00,
   STEAM_REG_RPAD_MARGIN, 0x00, 0x00,
   STEAM_REG_LED, 0x64, 0x00]

/-- Modelled from the spec: the success status of a completed query
(`ATT_ERROR_SUCCESS`, declared by BTstack, value 0). -/
def ATT_ERROR_SUCCESS : Nat := 0

/-- Modelled from the spec: a discovered service descriptor (BTstack's
`gatt_client_service_t`, declared outside `src/`). -/
structure gatt_client_service_t where
  start_group_handle : Nat
  end_group_handle : Nat
  uuid16 : Nat
  uuid128 : List Nat
deriving DecidableEq, Repr

/-- Modelled from the spec: a discovered characteristic descriptor (BTstack's
`gatt_client_characteristic_t`, declared outside `src/`); the code reads its
`value_handle`. -/
structure gatt_client_characteristic_t where
  start_handle : Nat
  value_handle : Nat
  end_handle : Nat
  properties : Nat
  uuid16 : Nat
  uuid128 : List Nat
deriving DecidableEq, Repr

/-- The file-level statics of `uni_hid_parser_steam.c` (lines 97-101); `device`
is a pointer, `none` when null. -/
structure steam_t where
  le_steam_service : gatt_client_service_t
  le_steam_characteristic_report : gatt_client_characteristic_t
  connection_handle : Nat
  device : Option uni_hid_device_t
  query_state : steam_query_state_t
deriving DecidableEq, Repr

/-- Modelled from the spec: a GATT client event packet as BTstack's accessors
(outside `src/`) decode it: its event type, the connection handle it belongs
to, and the descriptor or ATT status it carries. -/
inductive gatt_event_t where
  | GATT_EVENT_SERVICE_QUERY_RESULT (handle : Nat) (service : gatt_client_service_t)
  | GATT_EVENT_CHARACTERISTIC_QUERY_RESULT (handle : Nat)
      (characteristic : gatt_client_characteristic_t)
  | GATT_EVENT_QUERY_COMPLETE (handle : Nat) (att_status : Nat)
  | other (event_type : Nat)
deriving DecidableEq, Repr

/-- Calls that leave `uni_hid_parser_steam.c`, in the order the code makes them. -/
inductive steam_call where
  | gatt_client_discover_primary_services_by_uuid128 (con_handle : Nat) (uuid128 : List Nat)
  | gatt_client_discover_characteristics_for_service_by_uuid128 (con_handle : Nat)
      (service : gatt_client_service_t) (uuid128 : List Nat)
  | gatt_client_write_value_of_characteristic (con_handle value_handle value_length : Nat)
      (value : List Nat)
  | uni_hid_device_set_ready_complete (d : Option uni_hid_device_t)
deriving DecidableEq, Repr

/-- The function `handle_gatt_client_event` (lines 104-207).  The arguments
`channel` and `size`, which the body never reads, are left out. -/
def handle_gatt_client_event (st : steam_t) (packet_type : Nat) (packet : gatt_event_t) :
    steam_t × List steam_call :=
  if packet_type ≠ HCI_EVENT_PACKET then (st, [])
  else
    match st.query_state with
    | steam_query_state_t.STATE_QUERY_SERVICE =>
      match packet with
      | gatt_event_t.GATT_EVENT_SERVICE_QUERY_RESULT _ service =>
        ({ st with le_steam_service := service }, [])
      | gatt_event_t.GATT_EVENT_QUERY_COMPLETE _ att_status =>
        if att_status ≠ ATT_ERROR_SUCCESS then (st, [])
        else
          ({ st with query_state := steam_query_state_t.STATE_QUERY_CHARACTERISTIC_REPORT },
            [ steam_call.gatt_client_discover_characteristics_for_service_by_uuid128
                st.connection_handle st.le_steam_service le_steam_characteristic_report_uuid ])
      | _ => (st, [])
    | steam_query_state_t.STATE_QUERY_CHARACTERISTIC_REPORT =>
      match packet with
      | gatt_event_t.GATT_EVENT_QUERY_COMPLETE _ att_status =>
        if att_status ≠ ATT_ERROR_SUCCESS then (st, [])
        else
          ({ st with query_state := steam_query_state_t.STATE_QUERY_CLEAR_MAPPINGS },
            [ steam_call.gatt_client_write_value_of_characteristic st.connection_handle
                st.le_steam_characteristic_report.value_handle cmd_clear_mappings.length
                cmd_clear_mappings ])
      | gatt_event_t.GATT_EVENT_CHARACTERISTIC_QUERY_RESULT _ characteristic =>
        ({ st with le_steam_characteristic_report := characteristic }, [])
      | _ => (st, [])
    | steam_query_state_t.STATE_QUERY_CLEAR_MAPPINGS =>
      match packet with
      | gatt_event_t.GATT_EVENT_QUERY_COMPLETE _ att_status =>
        if att_status ≠ ATT_ERROR_SUCCESS then (st, [])
        else
          ({ st with query_state := steam_query_state_t.STATE_QUERY_DISABLE_LIZARD },
            [ steam_call.gatt_client_write_value_of_characteristic st.connection_handle
                st.le_steam_characteristic_report.value_handle cmd_disable_lizard.length
                cmd_disable_lizard ])
      | _ => (st, [])
    | steam_query_state_t.STATE_QUERY_DISABLE_LIZARD =>
      match packet with
      | gatt_event_t.GATT_EVENT_QUERY_COMPLETE _ att_status =>
        if att_status ≠ ATT_ERROR_SUCCESS then (st, [])
        else
          ({ st with query_state := steam_query_state_t.STATE_QUERY_END },
            [ steam_call.uni_hid_device_set_ready_complete st.device ])
      | _ => (st, [])
    | steam_query_state_t.STATE_QUERY_END => (st, [])
    | steam_query_state_t.STATE_QUERY_FORCEFEEDBACK => (st, [])

/-- The function `uni_hid_parser_steam_setup` (lines 209-214). -/
def uni_hid_parser_steam_setup (st : steam_t) (d : uni_hid_device_t) :
    steam_t × List steam_call :=
  ({ st with
      device := some d,
      connection_handle := d.conn.handle,
      query_state := steam_query_state_t.STATE_QUERY_SERVICE },
    [ steam_call.gatt_client_discover_primary_services_by_uuid128 d.conn.handle
        le_steam_service_uuid ])

/-- The statics as the C runtime sets them before any code runs: all zero, so
the state is the first enumerator and the device pointer is null. -/
def steam_initial : steam_t :=
  { le_steam_service :=
      { start_group_handle := 0, end_group_handle := 0, uuid16 := 0,
        uuid128 := List.replicate 16 0 },
    le_steam_characteristic_report :=
      { start_handle := 0, value_handle := 0, end_handle := 0, properties := 0, uuid16 := 0,
        uuid128 := List.replicate 16 0 },
    connection_handle := 0,
    device := none,
    query_state := steam_query_state_t.STATE_QUERY_SERVICE }

/-! ## Event sequences -/

/-- The state and the external calls, in order, after delivering a sequence of
events (packet type and decoded packet each) to `handle_gatt_client_event`. -/
def steam_run : steam_t → List (Nat × gatt_event_t) → steam_t × List steam_call
  | st, [] => (st, [])
  | st, pk :: rest =>
    ((steam_run (handle_gatt_client_event st pk.1 pk.2).1 rest).1,
      (handle_gatt_client_event st pk.1 pk.2).2
        ++ (steam_run (handle_gatt_client_event st pk.1 pk.2).1 rest).2)

/-- The five bring-up actions in the order the spec gives them, for device `d`,
a discovered service and the value handles the two writes go to. -/
def bring_up_script (d : uni_hid_device_t) (service : gatt_client_service_t)
    (clear_handle lizard_handle : Nat) : List steam_call :=
  [ steam_call.gatt_client_discover_primary_services_by_uuid128 d.conn.handle
      le_steam_service_uuid,
    steam_call.gatt_client_discover_characteristics_for_service_by_uuid128 d.conn.handle
      service le_steam_characteristic_report_uuid,
    steam_call.gatt_client_write_value_of_characteristic d.conn.handle clear_handle
      cmd_clear_mappings.length cmd_clear_mappings,
    steam_call.gatt_client_write_value_of_characteristic d.conn.handle lizard_handle
      cmd_disable_lizard.length cmd_disable_lizard,
    steam_call.uni_hid_device_set_ready_complete (some d) ]

/-- The immediate successor of a state in the order the spec gives:
DiscoverService, DiscoverCharacteristic, ClearMappings, DisableFactoryMode,
Done.  The enumerator `STATE_QUERY_FORCEFEEDBACK` is not part of that order. -/
def spec_successor : steam_query_state_t → Option steam_query_state_t
  | steam_query_state_t.STATE_QUERY_SERVICE =>
    some steam_query_state_t.STATE_QUERY_CHARACTERISTIC_REPORT
  | steam_query_state_t.STATE_QUERY_CHARACTERISTIC_REPORT =>
    some steam_query_state_t.STATE_QUERY_CLEAR_MAPPINGS
  | steam_query_state_t.STATE_QUERY_CLEAR_MAPPINGS =>
    some steam_query_state_t.STATE_QUERY_DISABLE_LIZARD
  | steam_query_state_t.STATE_QUERY_DISABLE_LIZARD =>
    some steam_query_state_t.STATE_QUERY_END
  | steam_query_state_t.STATE_QUERY_FORCEFEEDBACK => none
  | steam_query_state_t.STATE_QUERY_END => none

/-- The same event attributed to connection handle `h`. -/
def gatt_event_t.with_handle : gatt_event_t → Nat → gatt_event_t
  | GATT_EVENT_SERVICE_QUERY_RESULT _ service, h => GATT_EVENT_SERVICE_QUERY_RESULT h service
  | GATT_EVENT_CHARACTERISTIC_QUERY_RESULT _ characteristic, h =>
    GATT_EVENT_CHARACTERISTIC_QUERY_RESULT h characteristic
  | GATT_EVENT_QUERY_COMPLETE _ att_status, h => GATT_EVENT_QUERY_COMPLETE h att_status
  | other event_type, _ => other event_type

/-! ## Concrete inputs used by the witnesses and counterexamples -/

/-- A second controller, on connection handle 65, registry slot 1. -/
def second_device : uni_hid_device_t :=
  { steam_device with
    conn := { btaddr := [6, 5, 4, 3, 2, 1], handle := 65, state := 9, incoming := 1,
              connected := 1 },
    idx := 1 }

/-- The vendor service as a discovery reports it. -/
def steam_service : gatt_client_service_t :=
  { start_group_handle := 20, end_group_handle := 30, uuid16 := 0,
    uuid128 := le_steam_service_uuid }

/-- The report characteristic as a discovery reports it, value handle 22. -/
def steam_characteristic : gatt_client_characteristic_t :=
  { start_handle := 21, value_handle := 22, end_handle := 23, properties := 0x1e, uuid16 := 0,
    uuid128 := le_steam_characteristic_report_uuid }

/-- A complete successful bring-up conversation for connection 64. -/
def steam_conversation : List (Nat × gatt_event_t) :=
  [ (HCI_EVENT_PACKET, gatt_event_t.GATT_EVENT_SERVICE_QUERY_RESULT 64 steam_service),
    (HCI_EVENT_PACKET, gatt_event_t.GATT_EVENT_QUERY_COMPLETE 64 ATT_ERROR_SUCCESS),
    (HCI_EVENT_PACKET, gatt_event_t.GATT_EVENT_CHARACTERISTIC_QUERY_RESULT 64 steam_characteristic),
    (HCI_EVENT_PACKET, gatt_event_t.GATT_EVENT_QUERY_COMPLETE 64 ATT_ERROR_SUCCESS),
    (HCI_EVENT_PACKET, gatt_event_t.GATT_EVENT_QUERY_COMPLETE 64 ATT_ERROR_SUCCESS),
    (HCI_EVENT_PACKET, gatt_event_t.GATT_EVENT_QUERY_COMPLETE 64 ATT_ERROR_SUCCESS),
    (HCI_EVENT_PACKET, gatt_event_t.GATT_EVENT_QUERY_COMPLETE 64 ATT_ERROR_SUCCESS) ]

/-- The bring-up of `steam_device` (connection 64) after its service discovery
completed: the state is `STATE_QUERY_CHARACTERISTIC_REPORT`. -/
def steam_in_progress : steam_t :=
  (steam_run (uni_hid_parser_steam_setup steam_initial steam_device).1
    (steam_conversation.take 2)).1

/-- The number of actions of the bring-up script already issued when the state
machine is in a given state after `uni_hid_parser_steam_setup`. -/
def script_position : steam_query_state_t → Nat
  | steam_query_state_t.STATE_QUERY_SERVICE => 1
  | steam_query_state_t.STATE_QUERY_CHARACTERISTIC_REPORT => 2
  | steam_query_state_t.STATE_QUERY_CLEAR_MAPPINGS => 3
  | steam_query_state_t.STATE_QUERY_DISABLE_LIZARD => 4
  | steam_query_state_t.STATE_QUERY_FORCEFEEDBACK => 5
  | steam_query_state_t.STATE_QUERY_END => 5

/-! ## Command frames -/

/-- The length byte of a command frame `[0xC0, opcode, length, payload...]`:
its third byte. -/
def frame_length_byte (frame : List Nat) : Nat := frame.getD 2 0

/-- The payload of a command frame `[0xC0, opcode, length, payload...]`: the
bytes that follow the length byte. -/
def frame_payload (frame : List Nat) : List Nat := frame.drop 3

/-- The bytes of a register-write payload: the `(register_id, value_low,
value_high)` triples one after another. -/
def register_triples_bytes : List (Nat × Nat × Nat) → List Nat
  | [] => []
  | (register_id, value_low, value_high) :: rest =>
    register_id :: value_low :: value_high :: register_triples_bytes rest

/-- The five register writes of the disable-lizard frame (lines 89-93). -/
def disable_lizard_registers : List (Nat × Nat × Nat) :=
  [ (STEAM_REG_GYRO_MODE, 0x00, 0x00),
    (STEAM_REG_LPAD_MODE, 0x07, 0x00),
    (STEAM_REG_RPAD_MODE, 0x07, 0x00),
    (STEAM_REG_RPAD_MARGIN, 0x00, 0x00),
    (STEAM_REG_LED, 0x64, 0x00) ]

end UniHidParserSteam

namespace UniBtService

/-! ## Lemmas on array writes -/

theorem write_at_length {α : Type} (l : List α) (i : Nat) (f : α → α) :
    (write_at l i f).length = l.length := by
  unfold write_at
  cases h : l[i]? <;> simp

theorem write_at_getElem?_ne {α : Type} (l : List α) (i j : Nat) (f : α → α) (h : i ≠ j) :
    (write_at l i f)[j]? = l[j]? := by
  unfold write_at
  cases hi : l[i]? with
  | none => rfl
  | some a => simp [List.getElem?_set_ne h]

theorem write_at_getElem?_self {α : Type} (l : List α) (i : Nat) (f : α → α) :
    (write_at l i f)[i]? = (l[i]?).map f := by
  unfold write_at
  cases hi : l[i]? with
  | none => simp [hi]
  | some a =>
    have hlt : i < l.length := by
      rcases List.getElem?_eq_some_iff.mp hi with ⟨h, _⟩
      exact h
    simp [List.getElem?_set_self hlt]

theorem on_device_disconnected_frame (s : service_t) (d : Option uni_hid_device_t) (k : Nat)
    (h : d.map uni_hid_device_get_idx_for_instance ≠ some (k : Int)) :
    (uni_bt_service_on_device_disconnected s d).1.compact_devices[k]? = s.compact_devices[k]? := by
  unfold uni_bt_service_on_device_disconnected
  cases d with
  | none => rfl
  | some d =>
    simp only [Option.map_some', ne_eq, Option.some.injEq] at h
    by_cases hen : s.service_enabled = true
    · by_cases hneg : uni_hid_device_get_idx_for_instance d < 0
      · simp [hen, hneg]
      · simp only [hen, hneg, Bool.not_true, Bool.false_eq_true, if_false]
        apply write_at_getElem?_ne
        omega
    · simp [hen]

theorem on_device_ready_frame (s : service_t) (d : Option uni_hid_device_t) (k : Nat)
    (h : d.map uni_hid_device_get_idx_for_instance ≠ some (k : Int)) :
    (uni_bt_service_on_device_ready s d).1.compact_devices[k]? = s.compact_devices[k]? := by
  unfold uni_bt_service_on_device_ready
  cases d with
  | none => rfl
  | some d =>
    simp only [Option.map_some', ne_eq, Option.some.injEq] at h
    by_cases hen : s.service_enabled = true
    · by_cases hneg : uni_hid_device_get_idx_for_instance d < 0
      · simp [hen, hneg]
      · simp only [hen, hneg, Bool.not_true, Bool.false_eq_true, if_false]
        apply write_at_getElem?_ne
        omega
    · simp [hen]

theorem on_device_connected_frame (s : service_t) (d : Option uni_hid_device_t) (k : Nat)
    (h : d.map uni_hid_device_get_idx_for_instance ≠ some (k : Int)) :
    (uni_bt_service_on_device_connected s d).1.compact_devices[k]? = s.compact_devices[k]? := by
  unfold uni_bt_service_on_device_connected
  cases d with
  | none => rfl
  | some d =>
    simp only [Option.map_some', ne_eq, Option.some.injEq] at h
    by_cases hen : s.service_enabled = true
    · by_cases hneg : uni_hid_device_get_idx_for_instance d < 0
      · simp [hen, hneg]
      · simp only [hen, hneg, Bool.not_true, Bool.false_eq_true, if_false]
        apply write_at_getElem?_ne
        omega
    · simp [hen]

theorem lifecycle_step_frame (s : service_t) (c : lifecycle_call_t) (k : Nat)
    (h : c.resolved ≠ some (k : Int)) :
    (lifecycle_step s c).compact_devices[k]? = s.compact_devices[k]? := by
  cases c with
  | on_device_connected d => exact on_device_connected_frame s d k h
  | on_device_ready d => exact on_device_ready_frame s d k h
  | on_device_disconnected d => exact on_device_disconnected_frame s d k h

theorem lifecycle_run_frame (calls : List lifecycle_call_t) (s : service_t) (k : Nat)
    (h : ∀ c ∈ calls, c.resolved ≠ some (k : Int)) :
    (lifecycle_run s calls).compact_devices[k]? = s.compact_devices[k]? := by
  induction calls generalizing s with
  | nil => rfl
  | cons c rest ih =>
    have hc := h c (List.mem_cons_self c rest)
    have hrest : ∀ c' ∈ rest, c'.resolved ≠ some (k : Int) :=
      fun c' hc' => h c' (List.mem_cons_of_mem c hc')
    show (lifecycle_run (lifecycle_step s c) rest).compact_devices[k]? = _
    rw [ih (lifecycle_step s c) hrest, lifecycle_step_frame s c k hc]

theorem init_slot_zero (s0 : service_t) (j : Nat) (hj : j < s0.compact_devices.length) :
    (uni_bt_service_init s0).1.compact_devices[j]? = some compact_device_zero := by
  simp [uni_bt_service_init, hj]

theorem lifecycle_step_length (s : service_t) (c : lifecycle_call_t) :
    (lifecycle_step s c).compact_devices.length = s.compact_devices.length := by
  cases c with
  | on_device_connected d =>
    cases d with
    | none => rfl
    | some d =>
      simp only [lifecycle_step, uni_bt_service_on_device_connected]
      split
      · rfl
      · split
        · rfl
        · exact write_at_length _ _ _
  | on_device_ready d =>
    cases d with
    | none => rfl
    | some d =>
      simp only [lifecycle_step, uni_bt_service_on_device_ready]
      split
      · rfl
      · split
        · rfl
        · exact write_at_length _ _ _
  | on_device_disconnected d =>
    cases d with
    | none => rfl
    | some d =>
      simp only [lifecycle_step, uni_bt_service_on_device_disconnected]
      split
      · rfl
      · split
        · rfl
        · exact write_at_length _ _ _

/-- C1 (amended): when the service is enabled, for every device whose registry
slot index is `i` with `i` below the table capacity,
`uni_bt_service_on_device_disconnected` leaves the compact record at slot `i`
all-zero; when the service is disabled the call changes nothing and makes no
external call. -/
theorem on_device_disconnected_zeroes_slot_when_enabled (s : service_t) (d : uni_hid_device_t)
    (i : Nat) (hidx : uni_hid_device_get_idx_for_instance d = (i : Int))
    (hi : i < s.compact_devices.length) :
    (s.service_enabled = true →
      (uni_bt_service_on_device_disconnected s (some d)).1.compact_devices[i]?
        = some compact_device_zero) ∧
    (s.service_enabled = false →
      uni_bt_service_on_device_disconnected s (some d) = (s, [])) := by
  constructor
  · intro hen
    have hneg : ¬ ((i : Int) < 0) := by omega
    simp only [uni_bt_service_on_device_disconnected, hen, hidx, hneg, Bool.not_true,
      Bool.false_eq_true, if_false, Int.toNat_ofNat]
    rw [write_at_getElem?_self]
    simp [hi]
  · intro hen
    simp [uni_bt_service_on_device_disconnected, hen]

theorem on_device_disconnected_zeroes_slot_when_enabled_witness :
    uni_hid_device_get_idx_for_instance steam_device = ((0 : Nat) : Int) ∧
    0 < steam_connected_service.compact_devices.length ∧
    steam_connected_service.compact_devices[0]? ≠ some compact_device_zero ∧
    (uni_bt_service_on_device_disconnected steam_connected_service
        (some steam_device)).1.compact_devices[0]? = some compact_device_zero :=
  ⟨by decide, by decide, by decide,
    (on_device_disconnected_zeroes_slot_when_enabled steam_connected_service steam_device 0
      (by decide) (by decide)).1 (by decide)⟩

/-- C1 (counterexample): with the service disabled, the device at registry slot
0 (capacity 2) disconnects and the record at slot 0 is not all-zero afterwards:
it still holds the Steam controller's data. -/
theorem on_device_disconnected_disabled_keeps_slot :
    uni_hid_device_get_idx_for_instance steam_device = 0 ∧
    0 < steam_connected_disabled_service.compact_devices.length ∧
    (uni_bt_service_on_device_disconnected steam_connected_disabled_service
        (some steam_device)).1.compact_devices[0]? ≠ some compact_device_zero ∧
    ((uni_bt_service_on_device_disconnected steam_connected_disabled_service
        (some steam_device)).1.compact_devices[0]?).map compact_device_t.vendor_id
      = some 0x28DE := by
  decide

/-- C2: starting from the table as `uni_bt_service_init` leaves it, after any
sequence of connected / ready / disconnected calls every slot whose index is
never the index resolved by a call of the sequence is still all-zero; and in
any state a single call leaves every slot other than the one it resolves
unchanged. -/
theorem lifecycle_untouched_slot_stays_zero (s0 : service_t) (calls : List lifecycle_call_t)
    (j : Nat) (hj : j < s0.compact_devices.length)
    (hun : ∀ c ∈ calls, c.resolved ≠ some (j : Int)) :
    (lifecycle_run (uni_bt_service_init s0).1 calls).compact_devices[j]?
        = some compact_device_zero ∧
    (∀ (s : service_t) (c : lifecycle_call_t) (k : Nat), c.resolved ≠ some (k : Int) →
      (lifecycle_step s c).compact_devices[k]? = s.compact_devices[k]? ∧
      (lifecycle_step s c).compact_devices.length = s.compact_devices.length) := by
  constructor
  · rw [lifecycle_run_frame calls _ j hun]
    exact init_slot_zero s0 j hj
  · intro s c k hk
    exact ⟨lifecycle_step_frame s c k hk, lifecycle_step_length s c⟩

theorem lifecycle_untouched_slot_stays_zero_witness :
    (1 < (initial_statics 2).compact_devices.length) ∧
    (∀ c ∈ steam_session, c.resolved ≠ some ((1 : Nat) : Int)) ∧
    (lifecycle_run (uni_bt_service_init (initial_statics 2)).1 steam_session).compact_devices[0]?
        ≠ some compact_device_zero ∧
    (lifecycle_run (uni_bt_service_init (initial_statics 2)).1 steam_session).compact_devices[1]?
        = some compact_device_zero :=
  ⟨by decide, by decide, by decide,
    (lifecycle_untouched_slot_stays_zero (initial_statics 2) steam_session 1
      (by decide) (by decide)).1⟩

/-! ## Lemmas on the memory image -/

theorem compact_device_bytes_length (c : compact_device_t) (h : c.wf) :
    (compact_device_bytes c).length = sizeof_compact_device_t := by
  obtain ⟨ha, hn⟩ := h
  simp [compact_device_bytes, le16_bytes, sizeof_compact_device_t, ha, hn, HID_NAME_COMPACT_LEN]

theorem compact_devices_bytes_length (t : List compact_device_t) (h : devices_wf t) :
    (compact_devices_bytes t).length = t.length * sizeof_compact_device_t := by
  induction t with
  | nil => simp [compact_devices_bytes]
  | cons c t ih =>
    have hc : c.wf := h c (List.mem_cons_self c t)
    have ht : devices_wf t := fun x hx => h x (List.mem_cons_of_mem c hx)
    simp only [compact_devices_bytes, List.length_append, List.length_cons,
      compact_device_bytes_length c hc, ih ht]
    ring

theorem compact_devices_bytes_slice (t : List compact_device_t) (h : devices_wf t) (i : Nat)
    (c : compact_device_t) (hc : t[i]? = some c) :
    ((compact_devices_bytes t).drop (sizeof_compact_device_t * i)).take sizeof_compact_device_t
      = compact_device_bytes c := by
  induction t generalizing i with
  | nil => simp at hc
  | cons a t ih =>
    have ha : a.wf := h a (List.mem_cons_self a t)
    have ht : devices_wf t := fun x hx => h x (List.mem_cons_of_mem a hx)
    have hlen := compact_device_bytes_length a ha
    cases i with
    | zero =>
      simp only [List.getElem?_cons_zero, Option.some.injEq] at hc
      subst hc
      simp only [compact_devices_bytes, Nat.mul_zero, List.drop_zero]
      rw [List.take_append_of_le_length (by omega)]
      exact List.take_of_length_le (by omega)
    | succ n =>
      simp only [List.getElem?_cons_succ] at hc
      have hdrop : (compact_devices_bytes (a :: t)).drop (sizeof_compact_device_t * (n + 1))
          = (compact_devices_bytes t).drop (sizeof_compact_device_t * n) := by
        simp only [compact_devices_bytes]
        rw [List.drop_append_eq_append_drop]
        have h1 : (compact_device_bytes a).length ≤ sizeof_compact_device_t * (n + 1) := by
          rw [hlen, Nat.mul_succ]; omega
        rw [List.drop_of_length_le h1, hlen]
        simp [Nat.mul_succ]
      rw [hdrop]
      exact ih ht n hc

theorem write_at_devices_wf (t : List compact_device_t) (h : devices_wf t) (i : Nat)
    (f : compact_device_t → compact_device_t) (hf : ∀ c, c.wf → (f c).wf) :
    devices_wf (write_at t i f) := by
  intro x hx
  unfold write_at at hx
  cases hi : t[i]? with
  | none => rw [hi] at hx; exact h x hx
  | some a =>
    rw [hi] at hx
    have ha : a ∈ t := List.getElem?_mem hi
    rcases List.mem_or_eq_of_mem_set hx with hmem | heq
    · exact h x hmem
    · rw [heq]; exact hf a (h a ha)

/-- C3: for every state and device (null pointer included),
`uni_bt_service_on_device_ready` leaves the address, vendor id, product id,
incoming flag and controller type of every slot, the resolved one included,
unchanged, and also the 16th name byte: of the resolved slot only the subtype,
the connection-state byte and the first 15 name bytes may differ afterwards. -/
theorem on_device_ready_keeps_identity_fields (s : service_t) (d : Option uni_hid_device_t)
    (k : Nat) (c : compact_device_t) (hc : s.compact_devices[k]? = some c)
    (hd : ∀ x, d = some x → x.wf) :
    ∃ c1, (uni_bt_service_on_device_ready s d).1.compact_devices[k]? = some c1 ∧
      c1.addr = c.addr ∧ c1.vendor_id = c.vendor_id ∧ c1.product_id = c.product_id ∧
      c1.incoming = c.incoming ∧ c1.controller_type = c.controller_type ∧
      c1.name.drop (HID_NAME_COMPACT_LEN - 1) = c.name.drop (HID_NAME_COMPACT_LEN - 1) := by
  cases d with
  | none => exact ⟨c, hc, rfl, rfl, rfl, rfl, rfl, rfl⟩
  | some d =>
    have hname : HID_NAME_COMPACT_LEN ≤ d.name.length := (hd d rfl).2
    unfold uni_bt_service_on_device_ready
    by_cases hen : s.service_enabled = true
    · by_cases hneg : uni_hid_device_get_idx_for_instance d < 0
      · simp only [hen, hneg, Bool.not_true, Bool.false_eq_true, if_false, if_true]
        exact ⟨c, hc, rfl, rfl, rfl, rfl, rfl, rfl⟩
      · simp only [hen, hneg, Bool.not_true, Bool.false_eq_true, if_false]
        by_cases hk : (uni_hid_device_get_idx_for_instance d).toNat = k
        · rw [hk, write_at_getElem?_self, hc]
          refine ⟨_, rfl, rfl, rfl, rfl, rfl, rfl, ?_⟩
          simp only [memcpy]
          rw [List.drop_append_eq_append_drop]
          have h15 : (List.take (HID_NAME_COMPACT_LEN - 1) d.name).length
              = HID_NAME_COMPACT_LEN - 1 := by
            rw [List.length_take]; omega
          rw [h15, List.drop_of_length_le (by omega)]
          simp
        · rw [write_at_getElem?_ne _ _ _ _ hk]
          exact ⟨c, hc, rfl, rfl, rfl, rfl, rfl, rfl⟩
    · have hoff : s.service_enabled = false := by simpa using hen
      simp only [hoff, Bool.not_false, if_true]
      exact ⟨c, hc, rfl, rfl, rfl, rfl, rfl, rfl⟩

theorem on_device_ready_keeps_identity_fields_witness :
    steam_connected_service.compact_devices[0]? = some steam_record ∧
    ∃ c1, (uni_bt_service_on_device_ready steam_connected_service
        (some steam_device)).1.compact_devices[0]? = some c1 ∧
      c1.addr = steam_record.addr ∧ c1.vendor_id = steam_record.vendor_id ∧
      c1.product_id = steam_record.product_id ∧ c1.incoming = steam_record.incoming ∧
      c1.controller_type = steam_record.controller_type ∧
      c1.name.drop (HID_NAME_COMPACT_LEN - 1) = steam_record.name.drop (HID_NAME_COMPACT_LEN - 1) :=
  ⟨by decide,
    on_device_ready_keeps_identity_fields steam_connected_service (some steam_device) 0
      steam_record (by decide) (by intro x hx; cases hx; decide)⟩

theorem on_device_connected_slot (s : service_t) (d : uni_hid_device_t) (i : Nat)
    (c : compact_device_t) (hen : s.service_enabled = true)
    (hidx : uni_hid_device_get_idx_for_instance d = (i : Int))
    (hc : s.compact_devices[i]? = some c) :
    (uni_bt_service_on_device_connected s (some d)).1.compact_devices[i]? =
      some { c with
        vendor_id := u16 d.vendor_id,
        product_id := u16 d.product_id,
        controller_type := u16 d.controller_type,
        controller_subtype := u8 d.controller_subtype,
        addr := memcpy c.addr d.conn.btaddr 6,
        state := u8 d.conn.state,
        incoming := u8 d.conn.incoming,
        name := memcpy c.name d.name (HID_NAME_COMPACT_LEN - 1) } := by
  have hneg : ¬ ((i : Int) < 0) := by omega
  simp only [uni_bt_service_on_device_connected, hen, hidx, hneg, Bool.not_true,
    Bool.false_eq_true, if_false, Int.toNat_ofNat]
  rw [write_at_getElem?_self, hc]
  rfl

theorem on_device_connected_devices_wf (s : service_t) (d : uni_hid_device_t)
    (hwf : devices_wf s.compact_devices) (hd : d.wf) :
    devices_wf (uni_bt_service_on_device_connected s (some d)).1.compact_devices := by
  unfold uni_bt_service_on_device_connected
  simp only
  split
  · exact hwf
  · split
    · exact hwf
    · apply write_at_devices_wf _ hwf
      intro c hcwf
      obtain ⟨ha, hn⟩ := hcwf
      obtain ⟨hb, hm⟩ := hd
      simp only [HID_NAME_COMPACT_LEN] at hn hm
      constructor
      · simp only [memcpy, List.length_append, List.length_take, List.length_drop]
        omega
      · simp only [memcpy, List.length_append, List.length_take, List.length_drop,
          HID_NAME_COMPACT_LEN]
        omega

/-- C4 (amended): when the service is enabled, after
`uni_bt_service_on_device_connected` for a device resolved to slot `i`, the 31
bytes of the device table from byte offset `31 * i` are the 6 address bytes, the
vendor id and the product id as 2 little-endian bytes each, the state byte, the
incoming byte, the controller type as 2 little-endian bytes, the subtype byte,
the first 15 bytes of the device name, and the 16th name byte as it was before;
when the service is disabled the call changes nothing. -/
theorem on_device_connected_record_bytes (s : service_t) (d : uni_hid_device_t) (i : Nat)
    (c : compact_device_t) (hidx : uni_hid_device_get_idx_for_instance d = (i : Int))
    (hc : s.compact_devices[i]? = some c) (hwf : devices_wf s.compact_devices) (hd : d.wf) :
    (s.service_enabled = true →
      ((compact_devices_bytes
          (uni_bt_service_on_device_connected s (some d)).1.compact_devices).drop
            (sizeof_compact_device_t * i)).take sizeof_compact_device_t
        = d.conn.btaddr ++ le16_bytes d.vendor_id ++ le16_bytes d.product_id
            ++ [d.conn.state % 256] ++ [d.conn.incoming % 256] ++ le16_bytes d.controller_type
            ++ [d.controller_subtype % 256] ++ d.name.take 15 ++ c.name.drop 15) ∧
    (s.service_enabled = false →
      uni_bt_service_on_device_connected s (some d) = (s, [])) := by
  constructor
  · intro hen
    rw [compact_devices_bytes_slice _ (on_device_connected_devices_wf s d hwf hd) i _
      (on_device_connected_slot s d i c hen hidx hc)]
    have hcwf : c.wf := hwf c (List.getElem?_mem hc)
    obtain ⟨ha, hn⟩ := hcwf
    obtain ⟨hb, hm⟩ := hd
    have htake : List.take 6 d.conn.btaddr = d.conn.btaddr :=
      List.take_of_length_le (by omega)
    have hdrop : List.drop 6 c.addr = [] := List.drop_of_length_le (by omega)
    simp only [compact_device_bytes, le16_bytes, u8, u16, memcpy, HID_NAME_COMPACT_LEN, htake,
      hdrop]
    have e1 : ∀ x : Nat, x % 65536 % 256 = x % 256 := fun x => by omega
    have e2 : ∀ x : Nat, x % 65536 / 256 % 256 = x / 256 % 256 := fun x => by omega
    simp [e1, e2]
  · intro hen
    simp [uni_bt_service_on_device_connected, hen]

theorem on_device_connected_record_bytes_witness :
    ((compact_devices_bytes
        (uni_bt_service_on_device_connected fresh_service (some steam_device)).1.compact_devices).drop
          (sizeof_compact_device_t * 0)).take sizeof_compact_device_t
      = steam_record_bytes :=
  (on_device_connected_record_bytes fresh_service steam_device 0 compact_device_zero
    (by decide) (by decide) (by decide) (by decide)).1 (by decide)

/-- C4 (counterexample): with the service disabled, the Steam controller
(registry slot 0, vendor 0x28DE) connects and the 31 bytes at offset 0 of the
device table are still all zero, not the bytes of its record. -/
theorem on_device_connected_disabled_writes_nothing :
    uni_hid_device_get_idx_for_instance steam_device = 0 ∧
    ((compact_devices_bytes
        (uni_bt_service_on_device_connected fresh_disabled_service
          (some steam_device)).1.compact_devices).drop
          (sizeof_compact_device_t * 0)).take sizeof_compact_device_t
      = List.replicate 31 0 ∧
    ((compact_devices_bytes
        (uni_bt_service_on_device_connected fresh_disabled_service
          (some steam_device)).1.compact_devices).drop
          (sizeof_compact_device_t * 0)).take sizeof_compact_device_t
      ≠ steam_record_bytes := by
  decide

/-! ## Lemmas on the client-table scans -/

theorem first_client_none (cc : List client_connection_t) (p : client_connection_t → Bool)
    (n i : Nat) (h : ∀ j c, i ≤ j → j < i + n → cc[j]? = some c → p c = false) :
    first_client cc p i n = none := by
  induction n generalizing i with
  | zero => rfl
  | succ n ih =>
    have hrest : first_client cc p (i + 1) n = none :=
      ih (i + 1) (fun j c h1 h2 hc => h j c (by omega) (by omega) hc)
    unfold first_client
    cases hi : cc[i]? with
    | none => exact hrest
    | some c =>
      have hpc : p c = false := h i c (Nat.le_refl i) (by omega) hi
      simp only [hpc, Bool.false_eq_true, if_false]
      exact hrest

theorem first_client_some (cc : List client_connection_t) (p : client_connection_t → Bool)
    (n i k : Nat) (c : client_connection_t) (hik : i ≤ k) (hkn : k < i + n)
    (hk : cc[k]? = some c) (hp : p c = true)
    (hbefore : ∀ j cj, i ≤ j → j < k → cc[j]? = some cj → p cj = false) :
    first_client cc p i n = some k := by
  induction n generalizing i with
  | zero => omega
  | succ n ih =>
    unfold first_client
    by_cases hik2 : i = k
    · subst hik2
      simp only [hk, hp, if_true]
    · have hrest : first_client cc p (i + 1) n = some k :=
        ih (i + 1) (by omega) (by omega)
          (fun j cj h1 h2 hc => hbefore j cj (by omega) h2 hc)
      cases hi : cc[i]? with
      | none => exact hrest
      | some ci =>
        have hpc : p ci = false := hbefore i ci (Nat.le_refl i) (by omega) hi
        simp only [hpc, Bool.false_eq_true, if_false]
        exact hrest

theorem connection_for_conn_handle_none (cc : List client_connection_t) (h : Nat)
    (hno : ∀ c ∈ cc, c.connection_handle ≠ h) : connection_for_conn_handle cc h = none := by
  apply first_client_none
  intro j c _ _ hc
  have := hno c (List.getElem?_mem hc)
  simpa using this

theorem connection_for_conn_handle_some (cc : List client_connection_t) (h k : Nat)
    (c : client_connection_t) (hlen : cc.length = MAX_NR_CLIENT_CONNECTIONS)
    (hk : cc[k]? = some c) (hc : c.connection_handle = h)
    (hfirst : ∀ j cj, j < k → cc[j]? = some cj → cj.connection_handle ≠ h) :
    connection_for_conn_handle cc h = some k := by
  have hklt : k < cc.length := (List.getElem?_eq_some_iff.mp hk).1
  apply first_client_some cc _ _ 0 k c (Nat.zero_le k) (by omega) hk (by simpa using hc)
  intro j cj _ hjk hcj
  have := hfirst j cj hjk hcj
  simpa using this

theorem write_at_eq_set {α : Type} (l : List α) (i : Nat) (f : α → α) (a : α)
    (h : l[i]? = some a) : write_at l i f = l.set i (f a) := by
  simp [write_at, h]

/-- C5: for a write to the BLE-enable attribute (and likewise the scan-enable
attribute), `att_write_callback` forwards `buffer[0] != 0` to that attribute's
collaborator, calls nothing else, keeps the state and returns 1 when
`buffer_size = 1` and `offset = 0`; for every other size/offset combination it
calls no collaborator, keeps the state and returns 0. -/
theorem att_write_toggle (p : gatt_profile_t) (s : service_t) (con_handle att_handle
    transaction_mode offset : Nat) (buffer : Nat → Nat) (buffer_size : Nat) (hp : p.distinct) :
    (att_handle = p.AC03_VALUE_HANDLE →
      (buffer_size = 1 ∧ offset = 0 →
        att_write_callback p s con_handle att_handle transaction_mode offset buffer buffer_size
          = (1, s, [ ext_call.uni_bt_le_set_enabled (buffer 0 != 0) ])) ∧
      (¬ (buffer_size = 1 ∧ offset = 0) →
        att_write_callback p s con_handle att_handle transaction_mode offset buffer buffer_size
          = (0, s, []))) ∧
    (att_handle = p.AC04_VALUE_HANDLE →
      (buffer_size = 1 ∧ offset = 0 →
        att_write_callback p s con_handle att_handle transaction_mode offset buffer buffer_size
          = (1, s, [ ext_call.uni_bt_enable_new_connections_unsafe (buffer 0 != 0) ])) ∧
      (¬ (buffer_size = 1 ∧ offset = 0) →
        att_write_callback p s con_handle att_handle transaction_mode offset buffer buffer_size
          = (0, s, []))) := by
  unfold gatt_profile_t.distinct at hp
  simp only [List.nodup_cons, List.mem_cons, List.mem_singleton, not_or, List.not_mem_nil,
    not_false_eq_true, List.nodup_nil, and_true] at hp
  obtain ⟨-, -, ⟨h34, -, h3c⟩, ⟨-, h4c⟩, -⟩ := hp
  refine ⟨?_, ?_⟩
  · intro ha
    subst ha
    refine ⟨?_, ?_⟩
    · rintro ⟨h1, h2⟩
      simp [att_write_callback, h3c, h1, h2]
    · intro hn
      have hcond : buffer_size ≠ 1 ∨ offset ≠ 0 := by
        by_cases h1 : buffer_size = 1
        · right; exact fun h2 => hn ⟨h1, h2⟩
        · left; exact h1
      simp only [att_write_callback, h3c, if_false, if_true, hcond]
  · intro ha
    subst ha
    have h43 : p.AC04_VALUE_HANDLE ≠ p.AC03_VALUE_HANDLE := fun h => h34 h.symm
    refine ⟨?_, ?_⟩
    · rintro ⟨h1, h2⟩
      simp [att_write_callback, h4c, h43, h1, h2]
    · intro hn
      have hcond : buffer_size ≠ 1 ∨ offset ≠ 0 := by
        by_cases h1 : buffer_size = 1
        · right; exact fun h2 => hn ⟨h1, h2⟩
        · left; exact h1
      simp only [att_write_callback, h4c, h43, if_false, if_true, hcond]

theorem att_write_toggle_witness :
    sample_profile.distinct ∧
    att_write_callback sample_profile one_client_service 64 7 0 0 buffer_01_00 1
      = (1, one_client_service, [ ext_call.uni_bt_le_set_enabled true ]) ∧
    att_write_callback sample_profile one_client_service 64 9 0 0 buffer_01_00 1
      = (1, one_client_service, [ ext_call.uni_bt_enable_new_connections_unsafe true ]) ∧
    att_write_callback sample_profile one_client_service 64 7 0 1 buffer_01_00 1
      = (0, one_client_service, []) ∧
    att_write_callback sample_profile one_client_service 64 9 0 0 buffer_01_00 2
      = (0, one_client_service, []) :=
  ⟨by decide,
    ((att_write_toggle sample_profile one_client_service 64 7 0 0 buffer_01_00 1
      (by decide)).1 rfl).1 ⟨rfl, rfl⟩,
    ((att_write_toggle sample_profile one_client_service 64 9 0 0 buffer_01_00 1
      (by decide)).2 rfl).1 ⟨rfl, rfl⟩,
    ((att_write_toggle sample_profile one_client_service 64 7 0 1 buffer_01_00 1
      (by decide)).1 rfl).2 (by decide),
    ((att_write_toggle sample_profile one_client_service 64 9 0 0 buffer_01_00 2
      (by decide)).2 rfl).2 (by decide)⟩

/-- C6: for a write to the client notification-configuration attribute from
connection handle `h`: if no client-table entry has handle `h`, the whole state
is unchanged; otherwise the first entry with handle `h` gets
`notification_enabled = (little-endian 16-bit value of buffer[0..1] = 0x0001)`
and `value_handle` = the device-table characteristic value handle, and every
other entry, the entry's own handle, the cursor and the device table are
unchanged.  No external call is made and 0 is returned. -/
theorem att_write_client_configuration (p : gatt_profile_t) (s : service_t) (con_handle
    transaction_mode offset : Nat) (buffer : Nat → Nat) (buffer_size : Nat)
    (hlen : s.client_connections.length = MAX_NR_CLIENT_CONNECTIONS) :
    ((∀ c ∈ s.client_connections, c.connection_handle ≠ con_handle) →
      att_write_callback p s con_handle p.AC05_CLIENT_CONFIGURATION_HANDLE transaction_mode offset
        buffer buffer_size = (0, s, [])) ∧
    (∀ (k : Nat) (c : client_connection_t), s.client_connections[k]? = some c →
      c.connection_handle = con_handle →
      (∀ j cj, j < k → s.client_connections[j]? = some cj → cj.connection_handle ≠ con_handle) →
      att_write_callback p s con_handle p.AC05_CLIENT_CONFIGURATION_HANDLE transaction_mode offset
        buffer buffer_size =
        (0,
         { s with
           client_connections := s.client_connections.set k
             { notification_enabled := (little_endian_read_16 buffer 0 == 0x0001),
               value_handle := p.AC05_VALUE_HANDLE,
               connection_handle := c.connection_handle } },
         [])) := by
  refine ⟨?_, ?_⟩
  · intro hno
    simp only [att_write_callback, if_true,
      connection_for_conn_handle_none s.client_connections con_handle hno]
  · intro k c hk hc hfirst
    simp only [att_write_callback, if_true,
      connection_for_conn_handle_some s.client_connections con_handle k c hlen hk hc hfirst,
      write_at_eq_set _ _ _ c hk]
    rfl

theorem att_write_client_configuration_witness :
    one_client_service.client_connections =
      [ { notification_enabled := false, value_handle := 0, connection_handle := 64 },
        { notification_enabled := false, value_handle := 0,
          connection_handle := HCI_CON_HANDLE_INVALID } ] ∧
    att_write_callback sample_profile one_client_service 64
        sample_profile.AC05_CLIENT_CONFIGURATION_HANDLE 0 0 buffer_01_00 2 =
      (0,
       { one_client_service with
         client_connections :=
           [ { notification_enabled := true, value_handle := 11, connection_handle := 64 },
             { notification_enabled := false, value_handle := 0,
               connection_handle := HCI_CON_HANDLE_INVALID } ] },
       []) ∧
    att_write_callback sample_profile one_client_service 65
        sample_profile.AC05_CLIENT_CONFIGURATION_HANDLE 0 0 buffer_01_00 2 =
      (0, one_client_service, []) :=
  ⟨by decide,
    (att_write_client_configuration sample_profile one_client_service 64 0 0 buffer_01_00 2
      (by decide)).2 0 { notification_enabled := false, value_handle := 0, connection_handle := 64 }
      (by decide) rfl (by intro j cj hj; omega),
    (att_write_client_configuration sample_profile one_client_service 65 0 0 buffer_01_00 2
      (by decide)).1 (by decide)⟩

/-- C7: for every write to an attribute identifier other than the
notification-configuration, BLE-enable and scan-enable attributes, with any
offset, size and buffer, `att_write_callback` returns 0, makes no external call
and leaves the whole state (device table, client table, cursor) unchanged. -/
theorem att_write_other_attribute (p : gatt_profile_t) (s : service_t) (con_handle att_handle
    transaction_mode offset : Nat) (buffer : Nat → Nat) (buffer_size : Nat)
    (h1 : att_handle ≠ p.AC05_CLIENT_CONFIGURATION_HANDLE)
    (h2 : att_handle ≠ p.AC03_VALUE_HANDLE) (h3 : att_handle ≠ p.AC04_VALUE_HANDLE) :
    att_write_callback p s con_handle att_handle transaction_mode offset buffer buffer_size
      = (0, s, []) := by
  simp only [att_write_callback, h1, h2, h3, if_false]

theorem att_write_other_attribute_witness :
    att_write_callback sample_profile one_client_service 64 sample_profile.AC05_VALUE_HANDLE 0 0
      buffer_01_00 1 = (0, one_client_service, []) :=
  att_write_other_attribute sample_profile one_client_service 64 sample_profile.AC05_VALUE_HANDLE
    0 0 buffer_01_00 1 (by decide) (by decide) (by decide)

/-- C9: on an ATT connect event with handle `h`, `att_packet_handler` stores `h`
in the lowest-index client entry whose handle is the invalid sentinel and
changes nothing else (that entry's other fields, all other entries, the cursor,
the device table) and makes no external call; if no entry holds the invalid
sentinel, the whole state is unchanged. -/
theorem att_connected_claims_first_free_entry (s : service_t) (h : Nat)
    (hlen : s.client_connections.length = MAX_NR_CLIENT_CONNECTIONS) :
    ((∀ c ∈ s.client_connections, c.connection_handle ≠ HCI_CON_HANDLE_INVALID) →
      att_packet_handler s HCI_EVENT_PACKET (att_event_t.ATT_EVENT_CONNECTED h) = (s, [])) ∧
    (∀ (k : Nat) (c : client_connection_t), s.client_connections[k]? = some c →
      c.connection_handle = HCI_CON_HANDLE_INVALID →
      (∀ j cj, j < k → s.client_connections[j]? = some cj →
        cj.connection_handle ≠ HCI_CON_HANDLE_INVALID) →
      att_packet_handler s HCI_EVENT_PACKET (att_event_t.ATT_EVENT_CONNECTED h) =
        ({ s with
           client_connections := s.client_connections.set k
             { notification_enabled := c.notification_enabled,
               value_handle := c.value_handle,
               connection_handle := h } },
         [])) := by
  refine ⟨?_, ?_⟩
  · intro hno
    simp only [att_packet_handler, ne_eq, not_true_eq_false, if_false,
      connection_for_conn_handle_none s.client_connections HCI_CON_HANDLE_INVALID hno]
  · intro k c hk hc hfirst
    simp only [att_packet_handler, ne_eq, not_true_eq_false, if_false,
      connection_for_conn_handle_some s.client_connections HCI_CON_HANDLE_INVALID k c hlen hk hc
        hfirst,
      write_at_eq_set _ _ _ c hk]

theorem att_connected_claims_first_free_entry_witness :
    att_packet_handler one_client_service HCI_EVENT_PACKET (att_event_t.ATT_EVENT_CONNECTED 65) =
      ({ one_client_service with
         client_connections :=
           [ { notification_enabled := false, value_handle := 0, connection_handle := 64 },
             { notification_enabled := false, value_handle := 0, connection_handle := 65 } ] },
       []) ∧
    att_packet_handler full_clients_service HCI_EVENT_PACKET (att_event_t.ATT_EVENT_CONNECTED 66) =
      (full_clients_service, []) :=
  ⟨(att_connected_claims_first_free_entry one_client_service 65 (by decide)).2 1
      { notification_enabled := false, value_handle := 0,
        connection_handle := HCI_CON_HANDLE_INVALID }
      (by decide) rfl
      (by
        intro j cj hj hcj
        obtain rfl : j = 0 := by omega
        have h0 : one_client_service.client_connections[0]? =
            some { notification_enabled := false, value_handle := 0, connection_handle := 64 } := by
          decide
        rw [h0] at hcj
        cases hcj
        decide),
    (att_connected_claims_first_free_entry full_clients_service 66 (by decide)).1 (by decide)⟩

/-- C10: on an ATT disconnect event with handle `h`, if some client entry has
handle `h` then the first such entry becomes (handle = invalid sentinel,
notification_enabled = false, value_handle = 0) and every other entry, the
cursor and the device table are unchanged; if no entry has handle `h` the whole
state is unchanged.  No external call is made. -/
theorem att_disconnected_clears_entry (s : service_t) (h : Nat)
    (hlen : s.client_connections.length = MAX_NR_CLIENT_CONNECTIONS) :
    ((∀ c ∈ s.client_connections, c.connection_handle ≠ h) →
      att_packet_handler s HCI_EVENT_PACKET (att_event_t.ATT_EVENT_DISCONNECTED h) = (s, [])) ∧
    (∀ (k : Nat) (c : client_connection_t), s.client_connections[k]? = some c →
      c.connection_handle = h →
      (∀ j cj, j < k → s.client_connections[j]? = some cj → cj.connection_handle ≠ h) →
      att_packet_handler s HCI_EVENT_PACKET (att_event_t.ATT_EVENT_DISCONNECTED h) =
        ({ s with
           client_connections := s.client_connections.set k
             { notification_enabled := false,
               value_handle := 0,
               connection_handle := HCI_CON_HANDLE_INVALID } },
         [])) := by
  refine ⟨?_, ?_⟩
  · intro hno
    simp only [att_packet_handler, ne_eq, not_true_eq_false, if_false,
      connection_for_conn_handle_none s.client_connections h hno]
  · intro k c hk hc hfirst
    simp only [att_packet_handler, ne_eq, not_true_eq_false, if_false,
      connection_for_conn_handle_some s.client_connections h k c hlen hk hc hfirst,
      write_at_eq_set _ _ _ c hk]
    rfl

theorem att_disconnected_clears_entry_witness :
    att_packet_handler full_clients_service HCI_EVENT_PACKET
        (att_event_t.ATT_EVENT_DISCONNECTED 64) =
      ({ full_clients_service with
         client_connections :=
           [ { notification_enabled := false, value_handle := 0,
               connection_handle := HCI_CON_HANDLE_INVALID },
             { notification_enabled := false, value_handle := 0, connection_handle := 65 } ] },
       []) ∧
    att_packet_handler full_clients_service HCI_EVENT_PACKET
        (att_event_t.ATT_EVENT_DISCONNECTED 70) = (full_clients_service, []) :=
  ⟨(att_disconnected_clears_entry full_clients_service 64 (by decide)).2 0
      { notification_enabled := true, value_handle := 11, connection_handle := 64 }
      (by decide) rfl (by intro j cj hj; omega),
    (att_disconnected_clears_entry full_clients_service 70 (by decide)).1 (by decide)⟩

theorem att_read_callback_device_table_eq (p : gatt_profile_t) (env : collaborators_t)
    (s : service_t) (connection_handle offset buffer_size : Nat) (hp : p.distinct) :
    att_read_callback p env s connection_handle p.AC05_VALUE_HANDLE offset buffer_size =
      att_read_callback_handle_blob (compact_devices_bytes s.compact_devices)
        (u16 (sizeof_compact_devices s)) offset buffer_size := by
  unfold gatt_profile_t.distinct at hp
  simp only [List.nodup_cons, List.mem_cons, List.mem_singleton, not_or, List.not_mem_nil,
    not_false_eq_true, List.nodup_nil, and_true] at hp
  obtain ⟨⟨-, -, -, h15, -⟩, ⟨-, -, h25, -⟩, ⟨-, h35, -⟩, ⟨h45, -⟩, -⟩ := hp
  have g1 : p.AC05_VALUE_HANDLE ≠ p.AC01_VALUE_HANDLE := fun h => h15 h.symm
  have g2 : p.AC05_VALUE_HANDLE ≠ p.AC02_VALUE_HANDLE := fun h => h25 h.symm
  have g3 : p.AC05_VALUE_HANDLE ≠ p.AC03_VALUE_HANDLE := fun h => h35 h.symm
  have g4 : p.AC05_VALUE_HANDLE ≠ p.AC04_VALUE_HANDLE := fun h => h45 h.symm
  simp only [att_read_callback, g1, g2, g3, g4, if_false, if_true]

/-- C8: for a read of the device-table attribute with offset `o` and buffer
capacity `c`, where `T` is the byte size of the device table (below 2^16, as
the code passes it as a `uint16_t`): if `o >= T` the read returns 0 bytes; if
`o < T` it returns exactly `min (T - o) c` bytes and the returned bytes are the
table bytes `[o, o + min (T - o) c)`. -/
theorem att_read_device_table_blob (p : gatt_profile_t) (env : collaborators_t) (s : service_t)
    (connection_handle offset buffer_size : Nat) (hp : p.distinct)
    (hwf : devices_wf s.compact_devices) (hT : sizeof_compact_devices s < 65536) :
    (sizeof_compact_devices s ≤ offset →
      att_read_callback p env s connection_handle p.AC05_VALUE_HANDLE offset buffer_size
        = (0, [])) ∧
    (offset < sizeof_compact_devices s →
      (att_read_callback p env s connection_handle p.AC05_VALUE_HANDLE offset buffer_size).1
        = min (sizeof_compact_devices s - offset) buffer_size ∧
      (att_read_callback p env s connection_handle p.AC05_VALUE_HANDLE offset buffer_size).2.length
        = min (sizeof_compact_devices s - offset) buffer_size ∧
      (att_read_callback p env s connection_handle p.AC05_VALUE_HANDLE offset buffer_size).2
        = ((compact_devices_bytes s.compact_devices).drop offset).take
            (min (sizeof_compact_devices s - offset) buffer_size)) := by
  have hlen : (compact_devices_bytes s.compact_devices).length = sizeof_compact_devices s :=
    compact_devices_bytes_length s.compact_devices hwf
  have hu : u16 (sizeof_compact_devices s) = sizeof_compact_devices s := Nat.mod_eq_of_lt hT
  rw [att_read_callback_device_table_eq p env s connection_handle offset buffer_size hp, hu]
  unfold att_read_callback_handle_blob
  refine ⟨?_, ?_⟩
  · intro hge
    by_cases hgt : offset > sizeof_compact_devices s
    · simp only [hgt, if_true]
    · have heq : sizeof_compact_devices s - offset = 0 := by omega
      simp only [hgt, if_false, heq, Nat.zero_min, List.take_zero]
  · intro hlt
    have hgt : ¬ offset > sizeof_compact_devices s := by omega
    simp only [hgt, if_false, List.length_take, List.length_drop, hlen, true_and, and_true]
    omega

theorem att_read_device_table_blob_witness :
    sizeof_compact_devices steam_connected_service = 62 ∧
    att_read_callback sample_profile sample_collaborators steam_connected_service 64
        sample_profile.AC05_VALUE_HANDLE 62 20 = (0, []) ∧
    (att_read_callback sample_profile sample_collaborators steam_connected_service 64
        sample_profile.AC05_VALUE_HANDLE 6 4).1 = min (62 - 6) 4 ∧
    (att_read_callback sample_profile sample_collaborators steam_connected_service 64
        sample_profile.AC05_VALUE_HANDLE 6 4).2 = [0xDE, 0x28, 0x42, 0x11] :=
  ⟨by decide,
    (att_read_device_table_blob sample_profile sample_collaborators steam_connected_service 64
      62 20 (by decide) (by decide) (by decide)).1 (by decide),
    ((att_read_device_table_blob sample_profile sample_collaborators steam_connected_service 64
      6 4 (by decide) (by decide) (by decide)).2 (by decide)).1,
    ((att_read_device_table_blob sample_profile sample_collaborators steam_connected_service 64
      6 4 (by decide) (by decide) (by decide)).2 (by decide)).2.2⟩

/-! ## Lemmas on the notification scan -/

theorem notify_client_scan_none (cc : List client_connection_t) (n : Nat) (i : Int)
    (h : ∀ m cm, i ≤ m → m < i + n → client_at cc m = some cm → client_active cm = false) :
    notify_client_scan cc i n = -1 := by
  induction n generalizing i with
  | zero => rfl
  | succ n ih =>
    have hrest : notify_client_scan cc (i + 1) n = -1 :=
      ih (i + 1) (fun m cm h1 h2 hc => h m cm (by omega) (by push_cast; omega) hc)
    unfold notify_client_scan
    cases hi : client_at cc i with
    | none => exact hrest
    | some c =>
      have hc : client_active c = false := h i c (le_refl i) (by push_cast; omega) hi
      simp only [hc, Bool.false_eq_true, if_false]
      exact hrest

theorem notify_client_scan_found (cc : List client_connection_t) (n : Nat) (i j : Int)
    (c : client_connection_t) (hij : i ≤ j) (hjn : j < i + n) (hj : client_at cc j = some c)
    (hc : client_active c = true)
    (hbefore : ∀ m cm, i ≤ m → m < j → client_at cc m = some cm → client_active cm = false) :
    notify_client_scan cc i n = j := by
  induction n generalizing i with
  | zero => simp at hjn; omega
  | succ n ih =>
    unfold notify_client_scan
    by_cases hij2 : i = j
    · subst hij2
      simp only [hj, hc, if_true]
    · have hrest : notify_client_scan cc (i + 1) n = j :=
        ih (i + 1) (by omega) (by push_cast at hjn; omega)
          (fun m cm h1 h2 hm => hbefore m cm (by omega) h2 hm)
      cases hi : client_at cc i with
      | none => exact hrest
      | some ci =>
        have hci : client_active ci = false := hbefore i ci (le_refl i) (by omega) hi
        simp only [hci, Bool.false_eq_true, if_false]
        exact hrest

theorem notify_client_scan_cases (cc : List client_connection_t) (n : Nat) (i : Int) :
    (notify_client_scan cc i n = -1 ∧
      ∀ m cm, i ≤ m → m < i + n → client_at cc m = some cm → client_active cm = false) ∨
    (∃ c, i ≤ notify_client_scan cc i n ∧ notify_client_scan cc i n < i + n ∧
      client_at cc (notify_client_scan cc i n) = some c ∧ client_active c = true ∧
      ∀ m cm, i ≤ m → m < notify_client_scan cc i n → client_at cc m = some cm →
        client_active cm = false) := by
  by_cases hex : ∃ j : Nat, j < n ∧ ∃ c, client_at cc (i + j) = some c ∧ client_active c = true
  · right
    classical
    obtain ⟨hjn, c, hjc, hact⟩ := Nat.find_spec hex
    have hmin : ∀ m cm, i ≤ m → m < i + (Nat.find hex : Int) → client_at cc m = some cm →
        client_active cm = false := by
      intro m cm h1 h2 hm
      by_contra hne
      have hlt : (m - i).toNat < Nat.find hex := by omega
      apply Nat.find_min hex hlt
      refine ⟨by omega, cm, ?_, by simpa using hne⟩
      have : i + ((m - i).toNat : Int) = m := by omega
      rw [this]; exact hm
    have hscan : notify_client_scan cc i n = i + (Nat.find hex : Int) :=
      notify_client_scan_found cc n i _ c (by omega) (by omega) hjc hact hmin
    rw [hscan]
    exact ⟨c, by omega, by omega, hjc, hact, hmin⟩
  · left
    have hall : ∀ m cm, i ≤ m → m < i + n → client_at cc m = some cm →
        client_active cm = false := by
      intro m cm h1 h2 hm
      by_contra hne
      apply hex
      refine ⟨(m - i).toNat, by omega, cm, ?_, by simpa using hne⟩
      have : i + ((m - i).toNat : Int) = m := by omega
      rw [this]; exact hm
    exact ⟨notify_client_scan_none cc n i hall, hall⟩

theorem notify_client_cases (s : service_t) :
    (notify_client s = (s, []) ∧
      ∀ m cm, s.connection_index ≤ m → m < (MAX_NR_CLIENT_CONNECTIONS : Int) →
        client_at s.client_connections m = some cm → client_active cm = false) ∨
    (∃ (j : Int) (c : client_connection_t),
      s.connection_index ≤ j ∧ j < (MAX_NR_CLIENT_CONNECTIONS : Int) ∧
      client_at s.client_connections j = some c ∧ client_active c = true ∧
      (∀ m cm, s.connection_index ≤ m → m < j → client_at s.client_connections m = some cm →
        client_active cm = false) ∧
      notify_client s =
        ({ s with
           connection_index :=
             if s.connection_index + 1 = (MAX_NR_CLIENT_CONNECTIONS : Int) then 0
             else s.connection_index + 1 },
         notification_calls s c)) := by
  rcases notify_client_scan_cases s.client_connections
      ((MAX_NR_CLIENT_CONNECTIONS : Int) - s.connection_index).toNat s.connection_index with
    ⟨hscan, hall⟩ | ⟨c, h1, h2, hc, hact, hbefore⟩
  · left
    refine ⟨?_, ?_⟩
    · simp only [notify_client, hscan, if_true]
    · intro m cm hm1 hm2 hm
      exact hall m cm hm1 (by omega) hm
  · right
    refine ⟨_, c, h1, by omega, hc, hact, hbefore, ?_⟩
    have hne : notify_client_scan s.client_connections s.connection_index
        ((MAX_NR_CLIENT_CONNECTIONS : Int) - s.connection_index).toNat ≠ -1 := by
      intro heq
      rw [heq] at hc
      simp [client_at] at hc
    simp only [notify_client, hne, if_false, hc, notification_calls]
theorem maybe_notify_client_cases (s : service_t) :
    maybe_notify_client s = [] ∨
    ∃ h, maybe_notify_client s = [ ext_call.att_server_request_can_send_now_event h ] := by
  unfold maybe_notify_client
  split
  · split
    · exact Or.inr ⟨_, rfl⟩
    · exact Or.inl rfl
  · exact Or.inl rfl

/-- C11 (amended): on a data-changed signal `maybe_notify_client` scans the
client table in index order 0, 1, ... up to the capacity, whatever the cursor
is, and requests a can-send-now event for exactly the first entry in that order
that has a valid connection and notifications enabled; if no entry qualifies it
requests nothing. -/
theorem maybe_notify_client_requests_first_active (s : service_t)
    (hlen : s.client_connections.length = MAX_NR_CLIENT_CONNECTIONS) :
    ((∀ c ∈ s.client_connections, client_active c = false) → maybe_notify_client s = []) ∧
    (∀ (k : Nat) (c : client_connection_t), s.client_connections[k]? = some c →
      client_active c = true →
      (∀ j cj, j < k → s.client_connections[j]? = some cj → client_active cj = false) →
      maybe_notify_client s
        = [ ext_call.att_server_request_can_send_now_event c.connection_handle ]) ∧
    (∀ cursor : Int,
      maybe_notify_client { s with connection_index := cursor } = maybe_notify_client s) := by
  refine ⟨?_, ?_, ?_⟩
  · intro hno
    have hnone : first_client s.client_connections client_active 0 MAX_NR_CLIENT_CONNECTIONS
        = none :=
      first_client_none _ _ _ _ (fun j c _ _ hc => hno c (List.getElem?_mem hc))
    simp only [maybe_notify_client, hnone]
  · intro k c hk hc hfirst
    have hklt : k < s.client_connections.length := (List.getElem?_eq_some_iff.mp hk).1
    have hsome : first_client s.client_connections client_active 0 MAX_NR_CLIENT_CONNECTIONS
        = some k :=
      first_client_some _ _ _ 0 k c (Nat.zero_le k) (by omega) hk hc
        (fun j cj _ hjk hcj => hfirst j cj hjk hcj)
    simp only [maybe_notify_client, hsome, hk]
  · intro cursor
    rfl

theorem maybe_notify_client_requests_first_active_witness :
    two_subscribers_cursor1_service.client_connections =
      [ { notification_enabled := true, value_handle := 11, connection_handle := 64 },
        { notification_enabled := true, value_handle := 11, connection_handle := 65 } ] ∧
    maybe_notify_client two_subscribers_cursor1_service
      = [ ext_call.att_server_request_can_send_now_event 64 ] :=
  ⟨by decide,
    (maybe_notify_client_requests_first_active two_subscribers_cursor1_service (by decide)).2.1 0
      { notification_enabled := true, value_handle := 11, connection_handle := 64 }
      (by decide) (by decide) (by intro j cj hj; omega)⟩

/-- C11 (counterexample): with cursor 1 and both clients (connections 64 at
index 0 and 65 at index 1) subscribed, the order "cursor, cursor+1, ...
wrapping once" is 1, 0 and its first qualifying entry is index 1 (connection
65), but `maybe_notify_client` requests the can-send-now event for connection
64, the entry at index 0. -/
theorem maybe_notify_client_starts_at_index_zero :
    two_subscribers_cursor1_service.connection_index = 1 ∧
    cyclic_active_order two_subscribers_cursor1_service.client_connections 1 = [1, 0] ∧
    two_subscribers_cursor1_service.client_connections[1]? =
      some { notification_enabled := true, value_handle := 11, connection_handle := 65 } ∧
    maybe_notify_client two_subscribers_cursor1_service
      = [ ext_call.att_server_request_can_send_now_event 64 ] := by
  decide

theorem client_at_natCast (cc : List client_connection_t) (m : Nat) :
    client_at cc (m : Int) = cc[m]? := by
  have hneg : ¬ ((m : Int) < 0) := by omega
  simp only [client_at, hneg, if_false, Int.toNat_ofNat]

/-- C12 (amended): whatever connection a can-send-now event was requested for,
any notification that `att_packet_handler` transmits on it is addressed to the
connection handle and the value handle recorded in the entry that the scan from
the round-robin cursor selects: the first client entry at or after the cursor
(and below the capacity) that has a valid connection and notifications enabled;
its payload is the whole current device table (all capacity * record-size
bytes). -/
theorem can_send_now_notification_target (s : service_t) (con value_handle : Nat)
    (value : List Nat) (value_len : Nat)
    (hsent : ext_call.att_server_notify con value_handle value value_len ∈
      (att_packet_handler s HCI_EVENT_PACKET att_event_t.ATT_EVENT_CAN_SEND_NOW).2) :
    (∃ (j : Nat) (c : client_connection_t),
      s.client_connections[j]? = some c ∧ client_active c = true ∧
      s.connection_index ≤ (j : Int) ∧ j < MAX_NR_CLIENT_CONNECTIONS ∧
      (∀ (m : Nat) (cm : client_connection_t), s.connection_index ≤ (m : Int) → m < j →
        s.client_connections[m]? = some cm → client_active cm = false) ∧
      con = c.connection_handle ∧ value_handle = c.value_handle) ∧
    value = compact_devices_bytes s.compact_devices ∧
    value_len = u16 (sizeof_compact_devices s) ∧
    (devices_wf s.compact_devices →
      value.length = s.compact_devices.length * sizeof_compact_device_t) := by
  have hpk : att_packet_handler s HCI_EVENT_PACKET att_event_t.ATT_EVENT_CAN_SEND_NOW
      = notify_client s := by
    simp [att_packet_handler]
  rw [hpk] at hsent
  rcases notify_client_cases s with ⟨hnone, -⟩ | ⟨j, c, h1, h2, hc, hact, hbefore, hres⟩
  · rw [hnone] at hsent
    simp at hsent
  · rw [hres] at hsent
    simp only [notification_calls, List.mem_cons, ext_call.att_server_notify.injEq,
      List.mem_singleton, List.not_mem_nil, or_false, reduceCtorEq] at hsent
    obtain ⟨e1, e2, e3, e4⟩ := hsent
    have h0 : 0 ≤ j := by
      by_contra hneg
      have hlt : j < 0 := by omega
      simp [client_at, hlt] at hc
    have hj : ((j.toNat : Nat) : Int) = j := Int.toNat_of_nonneg h0
    have hcn : s.client_connections[j.toNat]? = some c := by
      rw [← client_at_natCast, hj]
      exact hc
    refine ⟨⟨j.toNat, c, hcn, hact, by omega, by omega, ?_, e1, e2⟩, e3, e4, ?_⟩
    · intro m cm hm1 hm2 hcm
      exact hbefore (m : Int) cm hm1 (by omega) (by rw [client_at_natCast]; exact hcm)
    · intro hwf
      rw [e3]
      exact compact_devices_bytes_length s.compact_devices hwf

theorem can_send_now_notification_target_witness :
    two_subscribers_cursor1_service.connection_index = 1 ∧
    ext_call.att_server_notify 65 11
        (compact_devices_bytes two_subscribers_cursor1_service.compact_devices) 62 ∈
      (att_packet_handler two_subscribers_cursor1_service HCI_EVENT_PACKET
        att_event_t.ATT_EVENT_CAN_SEND_NOW).2 ∧
    (∃ (j : Nat) (c : client_connection_t),
      two_subscribers_cursor1_service.client_connections[j]? = some c ∧
      client_active c = true ∧
      two_subscribers_cursor1_service.connection_index ≤ (j : Int) ∧
      j < MAX_NR_CLIENT_CONNECTIONS ∧
      (∀ (m : Nat) (cm : client_connection_t),
        two_subscribers_cursor1_service.connection_index ≤ (m : Int) → m < j →
        two_subscribers_cursor1_service.client_connections[m]? = some cm →
        client_active cm = false) ∧
      65 = c.connection_handle ∧ 11 = c.value_handle) ∧
    (compact_devices_bytes two_subscribers_cursor1_service.compact_devices).length
      = two_subscribers_cursor1_service.compact_devices.length * sizeof_compact_device_t :=
  ⟨by decide, by decide,
    (can_send_now_notification_target two_subscribers_cursor1_service 65 11
      (compact_devices_bytes two_subscribers_cursor1_service.compact_devices) 62
      (by decide)).1,
    (can_send_now_notification_target two_subscribers_cursor1_service 65 11
      (compact_devices_bytes two_subscribers_cursor1_service.compact_devices) 62
      (by decide)).2.2.2 (by decide)⟩

/-- C12 (counterexample): with connections 64 and 65 both subscribed, the
first can-send-now event notifies connection 64 and requests the next event for
connection 64; a data-changed signal in the resulting state also requests the
event for connection 64; yet the event delivered next transmits its
notification to connection 65. -/
theorem can_send_now_for_one_connection_notifies_another :
    att_packet_handler two_subscribers_service HCI_EVENT_PACKET
        att_event_t.ATT_EVENT_CAN_SEND_NOW =
      (two_subscribers_cursor1_service,
       [ ext_call.att_server_notify 64 11
           (compact_devices_bytes two_subscribers_service.compact_devices) 62,
         ext_call.att_server_request_can_send_now_event 64 ]) ∧
    maybe_notify_client two_subscribers_cursor1_service
      = [ ext_call.att_server_request_can_send_now_event 64 ] ∧
    (att_packet_handler two_subscribers_cursor1_service HCI_EVENT_PACKET
        att_event_t.ATT_EVENT_CAN_SEND_NOW).2 =
      [ ext_call.att_server_notify 65 11
          (compact_devices_bytes two_subscribers_cursor1_service.compact_devices) 62,
        ext_call.att_server_request_can_send_now_event 65 ] := by
  decide
/-- C13 (amended): when a can-send-now event transmits a notification to the
client entry at index `j` (the first entry at or after the cursor with a valid
connection and notifications enabled), the can-send-now request issued by that
same event is for the connection of entry `j` itself, the one just notified,
and nothing but the cursor changes in the state; when `j` is the cursor
position, the cursor afterwards is `(j + 1) mod capacity`. -/
theorem can_send_now_cursor_and_request (s : service_t) (j : Int) (c : client_connection_t)
    (hkj : s.connection_index ≤ j) (hj : j < (MAX_NR_CLIENT_CONNECTIONS : Int))
    (hc : client_at s.client_connections j = some c)
    (hact : client_active c = true)
    (hbefore : ∀ m cm, s.connection_index ≤ m → m < j →
      client_at s.client_connections m = some cm → client_active cm = false) :
    (att_packet_handler s HCI_EVENT_PACKET att_event_t.ATT_EVENT_CAN_SEND_NOW).2
      = [ ext_call.att_server_notify c.connection_handle c.value_handle
            (compact_devices_bytes s.compact_devices) (u16 (sizeof_compact_devices s)),
          ext_call.att_server_request_can_send_now_event c.connection_handle ] ∧
    (att_packet_handler s HCI_EVENT_PACKET att_event_t.ATT_EVENT_CAN_SEND_NOW).1
      = { s with
          connection_index :=
            (att_packet_handler s HCI_EVENT_PACKET
              att_event_t.ATT_EVENT_CAN_SEND_NOW).1.connection_index } ∧
    (j = s.connection_index →
      (att_packet_handler s HCI_EVENT_PACKET att_event_t.ATT_EVENT_CAN_SEND_NOW).1.connection_index
        = (j + 1) % (MAX_NR_CLIENT_CONNECTIONS : Int)) := by
  have hpk : att_packet_handler s HCI_EVENT_PACKET att_event_t.ATT_EVENT_CAN_SEND_NOW
      = notify_client s := by
    simp [att_packet_handler]
  have hscan : notify_client_scan s.client_connections s.connection_index
      ((MAX_NR_CLIENT_CONNECTIONS : Int) - s.connection_index).toNat = j :=
    notify_client_scan_found _ _ _ j c hkj (by omega) hc hact hbefore
  have h0 : 0 ≤ j := by
    by_contra hneg
    have hlt : j < 0 := by omega
    simp [client_at, hlt] at hc
  have hne : j ≠ -1 := by omega
  have hres : notify_client s =
      ({ s with
         connection_index :=
           if s.connection_index + 1 = (MAX_NR_CLIENT_CONNECTIONS : Int) then 0
           else s.connection_index + 1 },
       notification_calls s c) := by
    simp only [notify_client, hscan, hne, if_false, hc, notification_calls]
  rw [hpk, hres]
  refine ⟨rfl, rfl, ?_⟩
  intro hjk
  simp only [MAX_NR_CLIENT_CONNECTIONS] at hj ⊢
  subst hjk
  split <;> omega

theorem can_send_now_cursor_and_request_witness :
    (att_packet_handler two_subscribers_service HCI_EVENT_PACKET
        att_event_t.ATT_EVENT_CAN_SEND_NOW).2
      = [ ext_call.att_server_notify 64 11
            (compact_devices_bytes two_subscribers_service.compact_devices) 62,
          ext_call.att_server_request_can_send_now_event 64 ] ∧
    (att_packet_handler two_subscribers_service HCI_EVENT_PACKET
        att_event_t.ATT_EVENT_CAN_SEND_NOW).1.connection_index = 1 :=
  ⟨(can_send_now_cursor_and_request two_subscribers_service 0
      { notification_enabled := true, value_handle := 11, connection_handle := 64 }
      (by decide) (by decide) (by decide) (by decide)
      (by
        intro m cm h1 h2
        have h3 : two_subscribers_service.connection_index = 0 := by decide
        omega)).1,
    (can_send_now_cursor_and_request two_subscribers_service 0
      { notification_enabled := true, value_handle := 11, connection_handle := 64 }
      (by decide) (by decide) (by decide) (by decide)
      (by
        intro m cm h1 h2
        have h3 : two_subscribers_service.connection_index = 0 := by decide
        omega)).2.2 (by decide)⟩

/-- C13 (counterexample): (a) with cursor 0 and only the entry at index 1
subscribed, the event notifies index `j = 1` and the cursor afterwards is 1,
not `(1 + 1) mod 2 = 0`; (b) with cursor 0 and both entries subscribed, the
event notifies index 0 (connection 64), the new cursor position 1 holds
connection 65, and the request the event issues is for connection 64. -/
theorem can_send_now_cursor_not_successor_of_notified :
    (second_subscribed_service.connection_index = 0 ∧
      second_subscribed_service.client_connections =
        [ { notification_enabled := false, value_handle := 0, connection_handle := 64 },
          { notification_enabled := true, value_handle := 11, connection_handle := 65 } ] ∧
      (att_packet_handler second_subscribed_service HCI_EVENT_PACKET
          att_event_t.ATT_EVENT_CAN_SEND_NOW).2 =
        [ ext_call.att_server_notify 65 11
            (compact_devices_bytes second_subscribed_service.compact_devices) 62,
          ext_call.att_server_request_can_send_now_event 65 ] ∧
      (att_packet_handler second_subscribed_service HCI_EVENT_PACKET
          att_event_t.ATT_EVENT_CAN_SEND_NOW).1.connection_index = 1 ∧
      (att_packet_handler second_subscribed_service HCI_EVENT_PACKET
          att_event_t.ATT_EVENT_CAN_SEND_NOW).1.connection_index
        ≠ (1 + 1) % (MAX_NR_CLIENT_CONNECTIONS : Int)) ∧
    (two_subscribers_service.connection_index = 0 ∧
      (att_packet_handler two_subscribers_service HCI_EVENT_PACKET
          att_event_t.ATT_EVENT_CAN_SEND_NOW).2 =
        [ ext_call.att_server_notify 64 11
            (compact_devices_bytes two_subscribers_service.compact_devices) 62,
          ext_call.att_server_request_can_send_now_event 64 ] ∧
      (att_packet_handler two_subscribers_service HCI_EVENT_PACKET
          att_event_t.ATT_EVENT_CAN_SEND_NOW).1.connection_index = 1 ∧
      (att_packet_handler two_subscribers_service HCI_EVENT_PACKET
          att_event_t.ATT_EVENT_CAN_SEND_NOW).1.client_connections[1]? =
        some { notification_enabled := true, value_handle := 11, connection_handle := 65 }) := by
  decide

/-- C15 (failing input): connections 64 (index 0) and 65 (index 1) subscribed,
one notification was relayed (cursor 1), then connection 65 switched its
notifications off.  Entry 0 still has a valid connection and notifications
enabled and a data-changed signal requests the event for it, but a can-send-now
event transmits nothing and leaves the state as it is, so do all later ones. -/
theorem can_send_now_skips_active_entry_before_cursor :
    first_only_cursor1_service.connection_index = 1 ∧
    first_only_cursor1_service.client_connections =
      [ { notification_enabled := true, value_handle := 11, connection_handle := 64 },
        { notification_enabled := false, value_handle := 11, connection_handle := 65 } ] ∧
    entry_active first_only_cursor1_service.client_connections 0 = true ∧
    maybe_notify_client first_only_cursor1_service
      = [ ext_call.att_server_request_can_send_now_event 64 ] ∧
    att_packet_handler first_only_cursor1_service HCI_EVENT_PACKET
        att_event_t.ATT_EVENT_CAN_SEND_NOW = (first_only_cursor1_service, []) ∧
    can_send_now_run first_only_cursor1_service 3 = [[], [], []] := by
  decide

/-- C16 (amended): in every state, the calls of one single invocation are
bounded: each of the three lifecycle (data-changed) calls transmits nothing and
requests at most one can-send-now event; a can-send-now event transmits at most
one notification and requests at most one further can-send-now event, for the
connection it notified; every other ATT event makes no external call; an
attribute write neither transmits nor requests. -/
theorem at_most_one_transmission_per_event (p : gatt_profile_t) (s : service_t) :
    (∀ d, (uni_bt_service_on_device_connected s d).2 = [] ∨
      ∃ h, (uni_bt_service_on_device_connected s d).2
        = [ ext_call.att_server_request_can_send_now_event h ]) ∧
    (∀ d, (uni_bt_service_on_device_ready s d).2 = [] ∨
      ∃ h, (uni_bt_service_on_device_ready s d).2
        = [ ext_call.att_server_request_can_send_now_event h ]) ∧
    (∀ d, (uni_bt_service_on_device_disconnected s d).2 = [] ∨
      ∃ h, (uni_bt_service_on_device_disconnected s d).2
        = [ ext_call.att_server_request_can_send_now_event h ]) ∧
    ((att_packet_handler s HCI_EVENT_PACKET att_event_t.ATT_EVENT_CAN_SEND_NOW).2 = [] ∨
      ∃ h value_handle value value_len,
        (att_packet_handler s HCI_EVENT_PACKET att_event_t.ATT_EVENT_CAN_SEND_NOW).2
          = [ ext_call.att_server_notify h value_handle value value_len,
              ext_call.att_server_request_can_send_now_event h ]) ∧
    (∀ packet_type packet, packet ≠ att_event_t.ATT_EVENT_CAN_SEND_NOW →
      (att_packet_handler s packet_type packet).2 = []) ∧
    (∀ packet_type, packet_type ≠ HCI_EVENT_PACKET →
      (att_packet_handler s packet_type att_event_t.ATT_EVENT_CAN_SEND_NOW).2 = []) ∧
    (∀ con_handle att_handle transaction_mode offset buffer buffer_size,
      ∀ e ∈ (att_write_callback p s con_handle att_handle transaction_mode offset buffer
          buffer_size).2.2,
        (∃ b, e = ext_call.uni_bt_le_set_enabled b) ∨
        (∃ b, e = ext_call.uni_bt_enable_new_connections_unsafe b)) := by
  refine ⟨?_, ?_, ?_, ?_, ?_, ?_, ?_⟩
  · intro d
    unfold uni_bt_service_on_device_connected
    cases d with
    | none => exact Or.inl rfl
    | some d =>
      simp only
      split
      · exact Or.inl rfl
      · split
        · exact Or.inl rfl
        · exact maybe_notify_client_cases _
  · intro d
    unfold uni_bt_service_on_device_ready
    cases d with
    | none => exact Or.inl rfl
    | some d =>
      simp only
      split
      · exact Or.inl rfl
      · split
        · exact Or.inl rfl
        · exact maybe_notify_client_cases _
  · intro d
    unfold uni_bt_service_on_device_disconnected
    cases d with
    | none => exact Or.inl rfl
    | some d =>
      simp only
      split
      · exact Or.inl rfl
      · split
        · exact Or.inl rfl
        · exact maybe_notify_client_cases _
  · have hpk : att_packet_handler s HCI_EVENT_PACKET att_event_t.ATT_EVENT_CAN_SEND_NOW
        = notify_client s := by
      simp [att_packet_handler]
    rw [hpk]
    rcases notify_client_cases s with ⟨hnone, -⟩ | ⟨j, c, -, -, -, -, -, hres⟩
    · exact Or.inl (by rw [hnone])
    · exact Or.inr ⟨c.connection_handle, c.value_handle, _, _, by rw [hres]; rfl⟩
  · intro packet_type packet hne
    unfold att_packet_handler
    split
    · rfl
    · cases packet with
      | ATT_EVENT_CONNECTED h => simp only; split <;> rfl
      | ATT_EVENT_CAN_SEND_NOW => exact absurd rfl hne
      | ATT_EVENT_DISCONNECTED h => simp only; split <;> rfl
      | other t => rfl
  · intro packet_type hne
    simp [att_packet_handler, hne]
  · intro con_handle att_handle transaction_mode offset buffer buffer_size e he
    unfold att_write_callback at he
    split at he
    · split at he <;> simp at he
    · split at he
      · split at he
        · simp at he
        · simp only [List.mem_singleton] at he
          exact Or.inl ⟨_, he⟩
      · split at he
        · split at he
          · simp at he
          · simp only [List.mem_singleton] at he
            exact Or.inr ⟨_, he⟩
        · simp at he
/-- C16 (counterexample): with connections 64 and 65 both subscribed and cursor
1, a can-send-now event transmits to connection 65 and requests the next event
for connection 65; the lifecycle call `uni_bt_service_on_device_ready` that
follows, before any further event is delivered, requests a can-send-now event
for connection 64.  Requests for two different connections are then
outstanding at once, and the two events that grant them each transmit a
notification: two transmissions are pending, not at most one. -/
theorem two_can_send_now_requests_outstanding :
    (att_packet_handler two_subscribers_cursor1_service HCI_EVENT_PACKET
        att_event_t.ATT_EVENT_CAN_SEND_NOW).2
      = [ ext_call.att_server_notify 65 11
            (compact_devices_bytes two_subscribers_cursor1_service.compact_devices) 62,
          ext_call.att_server_request_can_send_now_event 65 ] ∧
    (uni_bt_service_on_device_ready
        (att_packet_handler two_subscribers_cursor1_service HCI_EVENT_PACKET
          att_event_t.ATT_EVENT_CAN_SEND_NOW).1
        (some steam_device)).2
      = [ ext_call.att_server_request_can_send_now_event 64 ] ∧
    requested_connections
        ((att_packet_handler two_subscribers_cursor1_service HCI_EVENT_PACKET
            att_event_t.ATT_EVENT_CAN_SEND_NOW).2
          ++ (uni_bt_service_on_device_ready
              (att_packet_handler two_subscribers_cursor1_service HCI_EVENT_PACKET
                att_event_t.ATT_EVENT_CAN_SEND_NOW).1
              (some steam_device)).2)
      = [65, 64] ∧
    can_send_now_run event_then_ready_service 2
      = [ [ ext_call.att_server_notify 64 11
              (compact_devices_bytes event_then_ready_service.compact_devices) 62,
            ext_call.att_server_request_can_send_now_event 64 ],
          [ ext_call.att_server_notify 65 11
              (compact_devices_bytes event_then_ready_service.compact_devices) 62,
            ext_call.att_server_request_can_send_now_event 65 ] ] := by
  decide

theorem notify_client_two_entries (c0 c1 : client_connection_t) (k : Int)
    (devs : List compact_device_t) (en : Bool) (h0 : 0 ≤ k) :
    notify_client { client_connections := [c0, c1], connection_index := k,
                    compact_devices := devs, service_enabled := en } =
      if k = 0 then
        if client_active c0 then
          ({ client_connections := [c0, c1], connection_index := 1,
             compact_devices := devs, service_enabled := en },
           notification_calls { client_connections := [c0, c1], connection_index := k,
                                compact_devices := devs, service_enabled := en } c0)
        else if client_active c1 then
          ({ client_connections := [c0, c1], connection_index := 1,
             compact_devices := devs, service_enabled := en },
           notification_calls { client_connections := [c0, c1], connection_index := k,
                                compact_devices := devs, service_enabled := en } c1)
        else
          ({ client_connections := [c0, c1], connection_index := k,
             compact_devices := devs, service_enabled := en }, [])
      else if k = 1 ∧ client_active c1 = true then
        ({ client_connections := [c0, c1], connection_index := 0,
           compact_devices := devs, service_enabled := en },
         notification_calls { client_connections := [c0, c1], connection_index := k,
                              compact_devices := devs, service_enabled := en } c1)
      else
        ({ client_connections := [c0, c1], connection_index := k,
           compact_devices := devs, service_enabled := en }, []) := by
  by_cases hk0 : k = 0
  · subst hk0
    by_cases a0 : client_active c0 = true
    · simp [notify_client, notify_client_scan, client_at, MAX_NR_CLIENT_CONNECTIONS, a0,
        notification_calls]
    · by_cases a1 : client_active c1 = true
      · simp [notify_client, notify_client_scan, client_at, MAX_NR_CLIENT_CONNECTIONS, a0, a1,
          notification_calls]
      · simp [notify_client, notify_client_scan, client_at, MAX_NR_CLIENT_CONNECTIONS, a0, a1]
  · by_cases hk1 : k = 1
    · subst hk1
      by_cases a1 : client_active c1 = true
      · simp [notify_client, notify_client_scan, client_at, MAX_NR_CLIENT_CONNECTIONS, a1,
          notification_calls]
      · simp [notify_client, notify_client_scan, client_at, MAX_NR_CLIENT_CONNECTIONS, a1]
    · have hfuel : ((MAX_NR_CLIENT_CONNECTIONS : Int) - k).toNat = 0 := by
        simp only [MAX_NR_CLIENT_CONNECTIONS]; omega
      simp [notify_client, hfuel, notify_client_scan, hk0, hk1]
theorem att_packet_handler_can_send_now (s : service_t) :
    att_packet_handler s HCI_EVENT_PACKET att_event_t.ATT_EVENT_CAN_SEND_NOW = notify_client s := by
  simp [att_packet_handler]

/-- C14: for every client table with `N >= 1` entries that have a valid
connection and notifications enabled, and every cursor value (a non-negative C
`int`), if `N` consecutive can-send-now events each transmit a notification,
then the calls they make are exactly those serving the enabled entries in cyclic
index order starting from the cursor's position, each enabled entry exactly
once. -/
theorem relay_round_visits_each_active_once (s : service_t)
    (hlen : s.client_connections.length = MAX_NR_CLIENT_CONNECTIONS)
    (h0 : 0 ≤ s.connection_index)
    (hN : 1 ≤ (active_indices s.client_connections).length)
    (hsend : ∀ e ∈ can_send_now_run s (active_indices s.client_connections).length, e ≠ []) :
    can_send_now_run s (active_indices s.client_connections).length
      = (cyclic_active_order s.client_connections s.connection_index.toNat).map
          (notification_calls_at s) ∧
    (cyclic_active_order s.client_connections s.connection_index.toNat).Perm
      (active_indices s.client_connections) ∧
    (cyclic_active_order s.client_connections s.connection_index.toNat).Nodup := by
  obtain ⟨cc, k, devs, en⟩ := s
  simp only at hlen h0 hN hsend ⊢
  match cc, hlen with
  | [c0, c1], _ =>
    have hr : List.range 2 = [0, 1] := by decide
    by_cases hk0 : k = 0
    · subst hk0
      by_cases a0 : client_active c0 = true <;> by_cases a1 : client_active c1 = true
      · simp [can_send_now_run, att_packet_handler_can_send_now, notify_client_two_entries,
          active_indices, entry_active, cyclic_active_order, cyclic_order, notification_calls_at,
          notification_calls, sizeof_compact_devices, MAX_NR_CLIENT_CONNECTIONS, hr, a0, a1]
      · simp [can_send_now_run, att_packet_handler_can_send_now, notify_client_two_entries,
          active_indices, entry_active, cyclic_active_order, cyclic_order, notification_calls_at,
          notification_calls, sizeof_compact_devices, MAX_NR_CLIENT_CONNECTIONS, hr, a0, a1]
      · simp [can_send_now_run, att_packet_handler_can_send_now, notify_client_two_entries,
          active_indices, entry_active, cyclic_active_order, cyclic_order, notification_calls_at,
          notification_calls, sizeof_compact_devices, MAX_NR_CLIENT_CONNECTIONS, hr, a0, a1]
      · simp [active_indices, entry_active, MAX_NR_CLIENT_CONNECTIONS, hr, a0, a1] at hN
    · by_cases hk1 : k = 1
      · subst hk1
        by_cases a0 : client_active c0 = true <;> by_cases a1 : client_active c1 = true
        · simp [can_send_now_run, att_packet_handler_can_send_now, notify_client_two_entries,
            active_indices, entry_active, cyclic_active_order, cyclic_order,
            notification_calls_at, notification_calls, sizeof_compact_devices,
            MAX_NR_CLIENT_CONNECTIONS, hr, a0, a1]
          exact List.Perm.swap 0 1 []
        · simp [can_send_now_run, att_packet_handler_can_send_now, notify_client_two_entries,
            active_indices, entry_active, MAX_NR_CLIENT_CONNECTIONS, hr, a0, a1] at hsend
        · simp [can_send_now_run, att_packet_handler_can_send_now, notify_client_two_entries,
            active_indices, entry_active, cyclic_active_order, cyclic_order,
            notification_calls_at, notification_calls, sizeof_compact_devices,
            MAX_NR_CLIENT_CONNECTIONS, hr, a0, a1]
        · simp [active_indices, entry_active, MAX_NR_CLIENT_CONNECTIONS, hr, a0, a1] at hN
      · obtain ⟨n, hn⟩ : ∃ n, (active_indices [c0, c1]).length = n + 1 :=
          ⟨(active_indices [c0, c1]).length - 1, by omega⟩
        rw [hn] at hsend
        simp [can_send_now_run, att_packet_handler_can_send_now,
          notify_client_two_entries c0 c1 k devs en h0, hk0, hk1] at hsend
theorem relay_round_visits_each_active_once_witness :
    two_subscribers_cursor1_service.connection_index = 1 ∧
    active_indices two_subscribers_cursor1_service.client_connections = [0, 1] ∧
    can_send_now_run two_subscribers_cursor1_service 2 =
      [ [ ext_call.att_server_notify 65 11
            (compact_devices_bytes two_subscribers_cursor1_service.compact_devices) 62,
          ext_call.att_server_request_can_send_now_event 65 ],
        [ ext_call.att_server_notify 64 11
            (compact_devices_bytes two_subscribers_cursor1_service.compact_devices) 62,
          ext_call.att_server_request_can_send_now_event 64 ] ] :=
  ⟨by decide, by decide,
    (relay_round_visits_each_active_once two_subscribers_cursor1_service (by decide) (by decide)
      (by decide) (by decide)).1⟩

/-! ## The cursor invariant -/

theorem lifecycle_step_clients (s : service_t) (c : lifecycle_call_t) :
    (lifecycle_step s c).client_connections = s.client_connections ∧
    (lifecycle_step s c).connection_index = s.connection_index := by
  cases c with
  | on_device_connected d =>
    cases d with
    | none => exact ⟨rfl, rfl⟩
    | some d =>
      simp only [lifecycle_step, uni_bt_service_on_device_connected]
      split
      · exact ⟨rfl, rfl⟩
      · split <;> exact ⟨rfl, rfl⟩
  | on_device_ready d =>
    cases d with
    | none => exact ⟨rfl, rfl⟩
    | some d =>
      simp only [lifecycle_step, uni_bt_service_on_device_ready]
      split
      · exact ⟨rfl, rfl⟩
      · split <;> exact ⟨rfl, rfl⟩
  | on_device_disconnected d =>
    cases d with
    | none => exact ⟨rfl, rfl⟩
    | some d =>
      simp only [lifecycle_step, uni_bt_service_on_device_disconnected]
      split
      · exact ⟨rfl, rfl⟩
      · split <;> exact ⟨rfl, rfl⟩

theorem notify_client_cursor_in_bounds (s : service_t) (h : cursor_in_bounds s) :
    cursor_in_bounds (notify_client s).1 := by
  obtain ⟨hlen, h0, h1⟩ := h
  rcases notify_client_cases s with ⟨hnone, -⟩ | ⟨j, c, -, -, -, -, -, hres⟩
  · rw [hnone]; exact ⟨hlen, h0, h1⟩
  · rw [hres]
    refine ⟨hlen, ?_, ?_⟩
    · simp only
      split <;> omega
    · simp only
      split
      · simp [MAX_NR_CLIENT_CONNECTIONS]
      · omega

theorem att_packet_handler_cursor_in_bounds (s : service_t) (packet_type : Nat)
    (packet : att_event_t) (h : cursor_in_bounds s) :
    cursor_in_bounds (att_packet_handler s packet_type packet).1 := by
  unfold att_packet_handler
  split
  · exact h
  · cases packet with
    | ATT_EVENT_CONNECTED handle =>
      simp only
      split
      · exact h
      · exact ⟨by simp only [write_at_length]; exact h.1, h.2.1, h.2.2⟩
    | ATT_EVENT_CAN_SEND_NOW => exact notify_client_cursor_in_bounds s h
    | ATT_EVENT_DISCONNECTED handle =>
      simp only
      split
      · exact h
      · exact ⟨by simp only [write_at_length]; exact h.1, h.2.1, h.2.2⟩
    | other t => exact h

theorem att_write_callback_cursor_in_bounds (p : gatt_profile_t) (s : service_t)
    (con_handle att_handle transaction_mode offset : Nat) (buffer : Nat → Nat)
    (buffer_size : Nat) (h : cursor_in_bounds s) :
    cursor_in_bounds
      (att_write_callback p s con_handle att_handle transaction_mode offset buffer
        buffer_size).2.1 := by
  unfold att_write_callback
  split
  · split
    · exact h
    · exact ⟨by simp only [write_at_length]; exact h.1, h.2.1, h.2.2⟩
  · split
    · split <;> exact h
    · split
      · split <;> exact h
      · exact h

theorem service_step_cursor_in_bounds (p : gatt_profile_t) (s : service_t)
    (ev : service_event_t) (h : cursor_in_bounds s) : cursor_in_bounds (service_step p s ev) := by
  cases ev with
  | init =>
    exact ⟨by simp only [service_step, uni_bt_service_init, List.length_map]; exact h.1,
      h.2.1, h.2.2⟩
  | set_enabled enabled => exact h
  | lifecycle call =>
    obtain ⟨hc, hi⟩ := lifecycle_step_clients s call
    unfold cursor_in_bounds
    simp only [service_step, hc, hi]
    exact h
  | att_packet packet_type packet => exact att_packet_handler_cursor_in_bounds s packet_type packet h
  | att_write con_handle att_handle transaction_mode offset buffer buffer_size =>
    exact att_write_callback_cursor_in_bounds p s con_handle att_handle transaction_mode offset
      buffer buffer_size h
  | att_read _ _ _ _ => exact h

theorem service_run_cursor_in_bounds (p : gatt_profile_t) (evs : List service_event_t)
    (s : service_t) (h : cursor_in_bounds s) : cursor_in_bounds (service_run p s evs) := by
  induction evs generalizing s with
  | nil => exact h
  | cons ev rest ih => exact ih (service_step p s ev) (service_step_cursor_in_bounds p s ev h)

/-- C24: in every state reachable from the initial statics by any sequence of
service invocations (initialisation, enabling, lifecycle calls, ATT events
including can-send-now, attribute writes and reads), the client table has its
declared size and the cursor satisfies `0 <= cursor < capacity`; so every index
the loop of `notify_client` visits, from the cursor up to the capacity, refers
to an entry of the table, and the index the loop yields is `-1` or such an
index. -/
theorem reachable_cursor_in_bounds (cap : Nat) (p : gatt_profile_t)
    (evs : List service_event_t) :
    (0 ≤ (service_run p (initial_statics cap) evs).connection_index ∧
      (service_run p (initial_statics cap) evs).connection_index
        < (MAX_NR_CLIENT_CONNECTIONS : Int)) ∧
    (service_run p (initial_statics cap) evs).client_connections.length
      = MAX_NR_CLIENT_CONNECTIONS ∧
    (∀ i : Int, (service_run p (initial_statics cap) evs).connection_index ≤ i →
      i < (MAX_NR_CLIENT_CONNECTIONS : Int) →
      ∃ c, client_at (service_run p (initial_statics cap) evs).client_connections i = some c) ∧
    (notify_client_scan (service_run p (initial_statics cap) evs).client_connections
        (service_run p (initial_statics cap) evs).connection_index
        ((MAX_NR_CLIENT_CONNECTIONS : Int)
          - (service_run p (initial_statics cap) evs).connection_index).toNat = -1 ∨
      ∃ c, client_at (service_run p (initial_statics cap) evs).client_connections
        (notify_client_scan (service_run p (initial_statics cap) evs).client_connections
          (service_run p (initial_statics cap) evs).connection_index
          ((MAX_NR_CLIENT_CONNECTIONS : Int)
            - (service_run p (initial_statics cap) evs).connection_index).toNat) = some c) := by
  have hinit : cursor_in_bounds (initial_statics cap) := by
    refine ⟨?_, ?_, ?_⟩
    · simp [initial_statics]
    · simp [initial_statics]
    · simp [initial_statics, MAX_NR_CLIENT_CONNECTIONS]
  obtain ⟨hlen, h0, h1⟩ := service_run_cursor_in_bounds p evs (initial_statics cap) hinit
  refine ⟨⟨h0, h1⟩, hlen, ?_, ?_⟩
  · intro i hi1 hi2
    have hlt : i.toNat < (service_run p (initial_statics cap) evs).client_connections.length := by
      rw [hlen]; omega
    refine ⟨(service_run p (initial_statics cap) evs).client_connections[i.toNat], ?_⟩
    have hneg : ¬ i < 0 := by omega
    simp only [client_at, hneg, if_false]
    exact List.getElem?_eq_getElem hlt
  · rcases notify_client_scan_cases (service_run p (initial_statics cap) evs).client_connections
        ((MAX_NR_CLIENT_CONNECTIONS : Int)
          - (service_run p (initial_statics cap) evs).connection_index).toNat
        (service_run p (initial_statics cap) evs).connection_index with
      ⟨hnone, -⟩ | ⟨c, -, -, hc, -, -⟩
    · exact Or.inl hnone
    · exact Or.inr ⟨c, hc⟩

theorem on_device_ready_slot (s : service_t) (d : uni_hid_device_t) (i : Nat)
    (c : compact_device_t) (hen : s.service_enabled = true)
    (hidx : uni_hid_device_get_idx_for_instance d = (i : Int))
    (hc : s.compact_devices[i]? = some c) :
    (uni_bt_service_on_device_ready s (some d)).1.compact_devices[i]? =
      some { c with
        controller_subtype := u8 d.controller_subtype,
        state := u8 d.conn.connected,
        name := memcpy c.name d.name (HID_NAME_COMPACT_LEN - 1) } := by
  have hneg : ¬ ((i : Int) < 0) := by omega
  simp only [uni_bt_service_on_device_ready, hen, hidx, hneg, Bool.not_true,
    Bool.false_eq_true, if_false, Int.toNat_ofNat]
  rw [write_at_getElem?_self, hc]
  rfl

/-- C22 (failing input): the Steam controller's record has connection state 9
and connected flag 1.  After `uni_bt_service_on_device_connected` slot 0 holds
state byte 9; after `uni_bt_service_on_device_ready` with the same unchanged
record the state byte is 1, the `connected` flag, so the slot differs from the
one `on_device_connected` alone left.  In general, with the service enabled,
`on_device_ready` stores the `connected` flag in the state byte. -/
theorem on_device_ready_stores_connected_flag :
    steam_device.conn.state = 9 ∧ steam_device.conn.connected = 1 ∧
    steam_connected_service
      = (uni_bt_service_on_device_connected fresh_service (some steam_device)).1 ∧
    (steam_connected_service.compact_devices[0]?).map compact_device_t.state = some 9 ∧
    ((uni_bt_service_on_device_ready steam_connected_service
        (some steam_device)).1.compact_devices[0]?).map compact_device_t.state = some 1 ∧
    (uni_bt_service_on_device_ready steam_connected_service (some steam_device)).1.compact_devices
      ≠ steam_connected_service.compact_devices ∧
    (∀ (s : service_t) (d : uni_hid_device_t) (i : Nat) (c : compact_device_t),
      s.service_enabled = true → uni_hid_device_get_idx_for_instance d = (i : Int) →
      s.compact_devices[i]? = some c →
      ((uni_bt_service_on_device_ready s (some d)).1.compact_devices[i]?).map
          compact_device_t.state = some (u8 d.conn.connected)) := by
  refine ⟨by decide, by decide, rfl, by decide, by decide, by decide, ?_⟩
  intro s d i c hen hidx hc
  rw [on_device_ready_slot s d i c hen hidx hc]
  rfl

end UniBtService

namespace UniHidParserSteam

open UniBtService

/-! ## Lemmas on the bring-up state machine -/

theorem handle_gatt_client_event_cases (st : steam_t) (packet_type : Nat)
    (packet : gatt_event_t) :
    (handle_gatt_client_event st packet_type packet).1.connection_handle = st.connection_handle ∧
    (handle_gatt_client_event st packet_type packet).1.device = st.device ∧
    (((handle_gatt_client_event st packet_type packet).2 = [] ∧
        (handle_gatt_client_event st packet_type packet).1.query_state = st.query_state) ∨
      (packet_type = HCI_EVENT_PACKET ∧
        (∃ h, packet = gatt_event_t.GATT_EVENT_QUERY_COMPLETE h ATT_ERROR_SUCCESS) ∧
        ((st.query_state = steam_query_state_t.STATE_QUERY_SERVICE ∧
            handle_gatt_client_event st packet_type packet =
              ({ st with query_state := steam_query_state_t.STATE_QUERY_CHARACTERISTIC_REPORT },
               [ steam_call.gatt_client_discover_characteristics_for_service_by_uuid128
                   st.connection_handle st.le_steam_service
                   le_steam_characteristic_report_uuid ])) ∨
          (st.query_state = steam_query_state_t.STATE_QUERY_CHARACTERISTIC_REPORT ∧
            handle_gatt_client_event st packet_type packet =
              ({ st with query_state := steam_query_state_t.STATE_QUERY_CLEAR_MAPPINGS },
               [ steam_call.gatt_client_write_value_of_characteristic st.connection_handle
                   st.le_steam_characteristic_report.value_handle cmd_clear_mappings.length
                   cmd_clear_mappings ])) ∨
          (st.query_state = steam_query_state_t.STATE_QUERY_CLEAR_MAPPINGS ∧
            handle_gatt_client_event st packet_type packet =
              ({ st with query_state := steam_query_state_t.STATE_QUERY_DISABLE_LIZARD },
               [ steam_call.gatt_client_write_value_of_characteristic st.connection_handle
                   st.le_steam_characteristic_report.value_handle cmd_disable_lizard.length
                   cmd_disable_lizard ])) ∨
          (st.query_state = steam_query_state_t.STATE_QUERY_DISABLE_LIZARD ∧
            handle_gatt_client_event st packet_type packet =
              ({ st with query_state := steam_query_state_t.STATE_QUERY_END },
               [ steam_call.uni_hid_device_set_ready_complete st.device ]))))) := by
  by_cases hpt : packet_type = HCI_EVENT_PACKET
  · subst hpt
    cases hq : st.query_state <;> cases packet with
    | GATT_EVENT_SERVICE_QUERY_RESULT h service =>
      simp [handle_gatt_client_event, hq]
    | GATT_EVENT_CHARACTERISTIC_QUERY_RESULT h characteristic =>
      simp [handle_gatt_client_event, hq]
    | GATT_EVENT_QUERY_COMPLETE h att_status =>
      by_cases hs : att_status = ATT_ERROR_SUCCESS
      · subst hs
        simp [handle_gatt_client_event, hq]
      · simp [handle_gatt_client_event, hq, hs]
    | other t =>
      simp [handle_gatt_client_event, hq]
  · simp [handle_gatt_client_event, hpt]

/-- C17: for every bring-up state and every GATT client event,
`handle_gatt_client_event` leaves the state where it is or moves it to its
immediate successor in the order DiscoverService, DiscoverCharacteristic,
ClearMappings, DisableFactoryMode, Done (so never backward and never past the
next state); from Done every event leaves the whole state as it is and makes no
external call: no BLE operation and no ready signal. -/
theorem bring_up_state_advances_one_step (st : steam_t) (packet_type : Nat)
    (packet : gatt_event_t) :
    ((handle_gatt_client_event st packet_type packet).1.query_state = st.query_state ∨
      spec_successor st.query_state
        = some (handle_gatt_client_event st packet_type packet).1.query_state) ∧
    (st.query_state = steam_query_state_t.STATE_QUERY_END →
      handle_gatt_client_event st packet_type packet = (st, [])) := by
  refine ⟨?_, ?_⟩
  · rcases (handle_gatt_client_event_cases st packet_type packet).2.2 with
      ⟨-, hsame⟩ | ⟨-, -, h1 | h2 | h3 | h4⟩
    · exact Or.inl hsame
    · right; rw [h1.2, h1.1]; rfl
    · right; rw [h2.2, h2.1]; rfl
    · right; rw [h3.2, h3.1]; rfl
    · right; rw [h4.2, h4.1]; rfl
  · intro hend
    unfold handle_gatt_client_event
    split
    · rfl
    · simp only [hend]

/-- C18: in every bring-up state, a query-complete event whose ATT status is not
success leaves the whole state unchanged and makes no external call (no
discovery, no write, no disconnect, no ready-complete signal); so does any
sequence of such events, in particular from DiscoverService the state stays
DiscoverService. -/
theorem failed_query_complete_stalls (st : steam_t) (evs : List (Nat × gatt_event_t))
    (hfail : ∀ pk ∈ evs, ∃ h status, status ≠ ATT_ERROR_SUCCESS ∧
      pk.2 = gatt_event_t.GATT_EVENT_QUERY_COMPLETE h status) :
    steam_run st evs = (st, []) ∧
    (∀ pk ∈ evs, handle_gatt_client_event st pk.1 pk.2 = (st, [])) := by
  have hone : ∀ pk ∈ evs, handle_gatt_client_event st pk.1 pk.2 = (st, []) := by
    intro pk hpk
    obtain ⟨h, status, hne, hev⟩ := hfail pk hpk
    rw [hev]
    unfold handle_gatt_client_event
    split
    · rfl
    · cases hq : st.query_state <;> simp [hne]
  refine ⟨?_, hone⟩
  induction evs with
  | nil => rfl
  | cons pk rest ih =>
    have h1 := hone pk (List.mem_cons_self pk rest)
    have hrest : ∀ pk' ∈ rest, ∃ h status, status ≠ ATT_ERROR_SUCCESS ∧
        pk'.2 = gatt_event_t.GATT_EVENT_QUERY_COMPLETE h status :=
      fun pk' hpk' => hfail pk' (List.mem_cons_of_mem pk hpk')
    have hrest1 : ∀ pk' ∈ rest, handle_gatt_client_event st pk'.1 pk'.2 = (st, []) :=
      fun pk' hpk' => hone pk' (List.mem_cons_of_mem pk hpk')
    simp only [steam_run, h1, ih hrest hrest1, List.append_nil]

theorem failed_query_complete_stalls_witness :
    (uni_hid_parser_steam_setup steam_initial steam_device).1.query_state
      = steam_query_state_t.STATE_QUERY_SERVICE ∧
    steam_run (uni_hid_parser_steam_setup steam_initial steam_device).1
        [ (HCI_EVENT_PACKET, gatt_event_t.GATT_EVENT_QUERY_COMPLETE 64 0x0a),
          (HCI_EVENT_PACKET, gatt_event_t.GATT_EVENT_QUERY_COMPLETE 64 0x01),
          (HCI_EVENT_PACKET, gatt_event_t.GATT_EVENT_QUERY_COMPLETE 64 0x0a) ]
      = ((uni_hid_parser_steam_setup steam_initial steam_device).1, []) :=
  ⟨rfl,
    (failed_query_complete_stalls (uni_hid_parser_steam_setup steam_initial steam_device).1
      [ (HCI_EVENT_PACKET, gatt_event_t.GATT_EVENT_QUERY_COMPLETE 64 0x0a),
        (HCI_EVENT_PACKET, gatt_event_t.GATT_EVENT_QUERY_COMPLETE 64 0x01),
        (HCI_EVENT_PACKET, gatt_event_t.GATT_EVENT_QUERY_COMPLETE 64 0x0a) ]
      (by
        intro pk hpk
        simp only [List.mem_cons, List.mem_singleton, List.not_mem_nil, or_false] at hpk
        rcases hpk with rfl | rfl | rfl
        · exact ⟨64, 0x0a, by decide, rfl⟩
        · exact ⟨64, 0x01, by decide, rfl⟩
        · exact ⟨64, 0x0a, by decide, rfl⟩)).1⟩

theorem steam_run_follows_script (evs : List (Nat × gatt_event_t)) (st : steam_t)
    (d : uni_hid_device_t) (hh : st.connection_handle = d.conn.handle)
    (hd : st.device = some d) :
    ∃ service clear_handle lizard_handle,
      (steam_run st evs).2 <+:
        (bring_up_script d service clear_handle lizard_handle).drop
          (script_position st.query_state) := by
  induction evs generalizing st with
  | nil =>
    exact ⟨st.le_steam_service, 0, 0, List.nil_prefix⟩
  | cons pk rest ih =>
    obtain ⟨hh1, hd1, hcases⟩ := handle_gatt_client_event_cases st pk.1 pk.2
    obtain ⟨service, clear_handle, lizard_handle, hrest⟩ :=
      ih (handle_gatt_client_event st pk.1 pk.2).1 (by rw [hh1, hh]) (by rw [hd1, hd])
    simp only [steam_run]
    rcases hcases with ⟨hnil, hsame⟩ | ⟨-, -, h1 | h2 | h3 | h4⟩
    · rw [hsame] at hrest
      rw [hnil, List.nil_append]
      exact ⟨service, clear_handle, lizard_handle, hrest⟩
    · obtain ⟨hq, hres⟩ := h1
      rw [hres] at hrest ⊢
      rw [hq]
      refine ⟨st.le_steam_service, clear_handle, lizard_handle, ?_⟩
      simp only [script_position, bring_up_script, List.drop_succ_cons, List.drop_zero,
        List.singleton_append, hh] at hrest ⊢
      exact (List.prefix_cons_inj _).mpr hrest
    · obtain ⟨hq, hres⟩ := h2
      rw [hres] at hrest ⊢
      rw [hq]
      refine ⟨service, st.le_steam_characteristic_report.value_handle, lizard_handle, ?_⟩
      simp only [script_position, bring_up_script, List.drop_succ_cons, List.drop_zero,
        List.singleton_append, hh] at hrest ⊢
      exact (List.prefix_cons_inj _).mpr hrest
    · obtain ⟨hq, hres⟩ := h3
      rw [hres] at hrest ⊢
      rw [hq]
      refine ⟨service, clear_handle, st.le_steam_characteristic_report.value_handle, ?_⟩
      simp only [script_position, bring_up_script, List.drop_succ_cons, List.drop_zero,
        List.singleton_append, hh] at hrest ⊢
      exact (List.prefix_cons_inj _).mpr hrest
    · obtain ⟨hq, hres⟩ := h4
      rw [hres] at hrest ⊢
      rw [hq]
      refine ⟨service, clear_handle, lizard_handle, ?_⟩
      simp only [script_position, bring_up_script, List.drop_succ_cons, List.drop_zero,
        List.singleton_append, hd] at hrest ⊢
      exact (List.prefix_cons_inj _).mpr hrest

/-- C19: for every sequence of GATT client events following
`uni_hid_parser_steam_setup` for device `d`, the external calls made, in order,
are a prefix of: discover primary service, discover characteristic, write the
clear-mappings frame, write the disable-lizard frame, signal ready-complete for
`d`, all on `d`'s connection handle.  An event makes a call only if it is a
successful query-complete, and the state then moves to its successor; the
ready-complete signal is made exactly on a successful query-complete in
DisableFactoryMode, for the stored device. -/
theorem bring_up_actions_follow_script (st0 : steam_t) (d : uni_hid_device_t)
    (evs : List (Nat × gatt_event_t)) :
    (∃ service clear_handle lizard_handle,
      (uni_hid_parser_steam_setup st0 d).2
          ++ (steam_run (uni_hid_parser_steam_setup st0 d).1 evs).2
        <+: bring_up_script d service clear_handle lizard_handle) ∧
    (∀ st packet_type packet, (handle_gatt_client_event st packet_type packet).2 ≠ [] →
      packet_type = HCI_EVENT_PACKET ∧
      (∃ h, packet = gatt_event_t.GATT_EVENT_QUERY_COMPLETE h ATT_ERROR_SUCCESS) ∧
      spec_successor st.query_state
        = some (handle_gatt_client_event st packet_type packet).1.query_state) ∧
    (∀ st packet_type packet x,
      steam_call.uni_hid_device_set_ready_complete x
          ∈ (handle_gatt_client_event st packet_type packet).2 ↔
        (st.query_state = steam_query_state_t.STATE_QUERY_DISABLE_LIZARD ∧
          packet_type = HCI_EVENT_PACKET ∧
          (∃ h, packet = gatt_event_t.GATT_EVENT_QUERY_COMPLETE h ATT_ERROR_SUCCESS) ∧
          x = st.device)) := by
  refine ⟨?_, ?_, ?_⟩
  · obtain ⟨service, clear_handle, lizard_handle, hrest⟩ :=
      steam_run_follows_script evs (uni_hid_parser_steam_setup st0 d).1 d rfl rfl
    refine ⟨service, clear_handle, lizard_handle, ?_⟩
    simp only [uni_hid_parser_steam_setup, script_position, bring_up_script,
      List.drop_succ_cons, List.drop_zero, List.singleton_append] at hrest ⊢
    exact (List.prefix_cons_inj _).mpr hrest
  · intro st packet_type packet hne
    rcases (handle_gatt_client_event_cases st packet_type packet).2.2 with
      ⟨hnil, -⟩ | ⟨hpt, hqc, h1 | h2 | h3 | h4⟩
    · exact absurd hnil hne
    · exact ⟨hpt, hqc, by rw [h1.2, h1.1]; rfl⟩
    · exact ⟨hpt, hqc, by rw [h2.2, h2.1]; rfl⟩
    · exact ⟨hpt, hqc, by rw [h3.2, h3.1]; rfl⟩
    · exact ⟨hpt, hqc, by rw [h4.2, h4.1]; rfl⟩
  · intro st packet_type packet x
    constructor
    · intro hmem
      rcases (handle_gatt_client_event_cases st packet_type packet).2.2 with
        ⟨hnil, -⟩ | ⟨hpt, hqc, h1 | h2 | h3 | h4⟩
      · rw [hnil] at hmem; simp at hmem
      · rw [h1.2] at hmem; simp at hmem
      · rw [h2.2] at hmem; simp at hmem
      · rw [h3.2] at hmem; simp at hmem
      · rw [h4.2] at hmem
        simp only [List.mem_singleton, steam_call.uni_hid_device_set_ready_complete.injEq] at hmem
        exact ⟨h4.1, hpt, hqc, hmem⟩
    · rintro ⟨hq, hpt, ⟨h, hqc⟩, hx⟩
      subst hpt hqc hx
      simp [handle_gatt_client_event, hq, ATT_ERROR_SUCCESS]

theorem steam_conversation_completes_script :
    (uni_hid_parser_steam_setup steam_initial steam_device).2
        ++ (steam_run (uni_hid_parser_steam_setup steam_initial steam_device).1
              steam_conversation).2
      = bring_up_script steam_device steam_service 22 22 := by
  decide

/-- C20 (amended): there is one bring-up state for the whole parser, not one per
connection.  `uni_hid_parser_steam_setup` for any device replaces the stored
device and connection handle and resets the state to DiscoverService, whatever
bring-up was in progress (the stored descriptors are kept); and
`handle_gatt_client_event` never reads the connection handle of an event, so a
discovery or write completion is applied to the current bring-up whichever
connection it belongs to. -/
theorem bring_up_state_is_shared (st : steam_t) (d : uni_hid_device_t) (packet_type : Nat)
    (packet : gatt_event_t) (h : Nat) :
    (uni_hid_parser_steam_setup st d).1 =
      { le_steam_service := st.le_steam_service,
        le_steam_characteristic_report := st.le_steam_characteristic_report,
        connection_handle := d.conn.handle,
        device := some d,
        query_state := steam_query_state_t.STATE_QUERY_SERVICE } ∧
    handle_gatt_client_event st packet_type (packet.with_handle h)
      = handle_gatt_client_event st packet_type packet := by
  refine ⟨rfl, ?_⟩
  unfold handle_gatt_client_event
  split
  · rfl
  · cases st.query_state <;> cases packet <;> rfl

/-- C20 (counterexample): the bring-up of connection 64 has reached
DiscoverCharacteristic; `uni_hid_parser_steam_setup` for a device on connection
65 puts the state back to DiscoverService and replaces the stored handle; a
query-complete event that belongs to connection 64 is then not discarded: it
advances the bring-up to DiscoverCharacteristic and starts a characteristic
discovery on connection 65. -/
theorem bring_up_state_clobbered_by_other_connection :
    steam_in_progress.connection_handle = 64 ∧
    steam_in_progress.query_state = steam_query_state_t.STATE_QUERY_CHARACTERISTIC_REPORT ∧
    (uni_hid_parser_steam_setup steam_in_progress second_device).1.query_state
      = steam_query_state_t.STATE_QUERY_SERVICE ∧
    (uni_hid_parser_steam_setup steam_in_progress second_device).1.connection_handle = 65 ∧
    (handle_gatt_client_event (uni_hid_parser_steam_setup steam_in_progress second_device).1
        HCI_EVENT_PACKET (gatt_event_t.GATT_EVENT_QUERY_COMPLETE 64 ATT_ERROR_SUCCESS)).1.query_state
      = steam_query_state_t.STATE_QUERY_CHARACTERISTIC_REPORT ∧
    (handle_gatt_client_event (uni_hid_parser_steam_setup steam_in_progress second_device).1
        HCI_EVENT_PACKET (gatt_event_t.GATT_EVENT_QUERY_COMPLETE 64 ATT_ERROR_SUCCESS)).2
      = [ steam_call.gatt_client_discover_characteristics_for_service_by_uuid128 65
            steam_service le_steam_characteristic_report_uuid ] := by
  decide

/-- C21 (failing input): the clear-mappings frame, as the state machine writes
it on a successful query-complete in DiscoverCharacteristic, is the 3 bytes
`C0 81 01`: its length byte is 1 and no payload byte follows it.  The
disable-lizard frame does have the claimed form: header 0xC0, opcode 0x87,
length byte 15 equal to its 15 payload bytes, which are five whole
(register_id, value_low, value_high) triples. -/
theorem clear_mappings_frame_length_byte_exceeds_payload :
    (handle_gatt_client_event steam_in_progress HCI_EVENT_PACKET
        (gatt_event_t.GATT_EVENT_QUERY_COMPLETE 64 ATT_ERROR_SUCCESS)).2
      = [ steam_call.gatt_client_write_value_of_characteristic 64 0 3 [0xc0, 0x81, 0x01] ] ∧
    cmd_clear_mappings = [0xc0, STEAM_CMD_CLEAR_MAPPINGS, 0x01] ∧
    frame_length_byte cmd_clear_mappings = 1 ∧
    (frame_payload cmd_clear_mappings).length = 0 ∧
    cmd_disable_lizard
      = [0xc0, STEAM_CMD_WRITE_REGISTER, frame_length_byte cmd_disable_lizard]
          ++ frame_payload cmd_disable_lizard ∧
    STEAM_CMD_WRITE_REGISTER = 0x87 ∧
    frame_length_byte cmd_disable_lizard = (frame_payload cmd_disable_lizard).length ∧
    frame_length_byte cmd_disable_lizard = 15 ∧
    frame_payload cmd_disable_lizard = register_triples_bytes disable_lizard_registers := by
  decide

end UniHidParserSteam
